import Mathlib

/-!
Verification of the payroll reconciliation engine in
`scripts/Noloco_Add_Payroll_Records.py` against its natural-language
specification.  Each Python function the claims touch is embedded as an
executable Lean definition; dates are represented by their signed day
offset from the reference Monday 2026-01-12 (a Monday, so weekday
arithmetic is `emod 7` with Monday = 0, matching Python
`date.weekday()`).  Python `//` on ints is floor division; for the
positive divisors used here it coincides with `Int.fdiv`, which we use
directly.
-/

namespace PayrollSpec

/-! ### Pay-period calculator (src lines 145-206) -/
/-- Day number of the reference Monday 2026-01-12 in our day encoding
(we place it at 0; all other dates are day offsets from it). -/
def referenceMonday : Int := 0

structure PayPeriod where
  startDate : Int
  endDate : Int
deriving Repr, DecidableEq

/-- Embedding of `calculate_biweekly_pay_period` (src lines 145-185).
`daysDiff = (target - reference).days`, `cycle = daysDiff // 14`
(Python floor division), `start = reference + 14*cycle`,
`end = start + 13`. -/
def calculate_biweekly_pay_period (targetDate : Int) : PayPeriod :=
  let daysDiff := targetDate - referenceMonday
  let cycleNumber := Int.fdiv daysDiff 14
  let cycleOffset := cycleNumber * 14
  let periodMonday := referenceMonday + cycleOffset
  { startDate := periodMonday, endDate := periodMonday + 13 }

/-- Python `date.weekday()` (Monday = 0 .. Sunday = 6) expressed in the
day encoding: the reference day is a Monday. -/
def pyWeekday (d : Int) : Int := (d - referenceMonday) % 7

/-- The Monday of the week containing day `d`. -/
def mondayOfWeek (d : Int) : Int := d - pyWeekday d

/-- Embedding of `calculate_payment_date` (src lines 188-206):
`days_until_monday = (7 - weekday) % 7`, replaced by 7 when 0. -/
def calculate_payment_date (payPeriodEnd : Int) : Int :=
  let wd := pyWeekday payPeriodEnd
  let daysUntilMonday := (7 - wd) % 7
  let daysUntilMonday' := if daysUntilMonday = 0 then 7 else daysUntilMonday
  payPeriodEnd + daysUntilMonday'

/-! ### Python values and string helpers -/
/-- Loosely-typed field value as delivered by the transport layer:
`null`, a JSON boolean, or a string. -/
inductive PyVal where
  | pynone
  | pybool (b : Bool)
  | pystr (s : String)
deriving Repr, DecidableEq

/-- Python truthiness for `PyVal`: `None` and `""` and `False` are
falsy, `True` and every non-empty string are truthy. -/
def pyTruthy : PyVal → Bool
  | .pynone => false
  | .pybool b => b
  | .pystr s => !s.isEmpty

/-- Python `s.strip()`: drop leading and trailing whitespace.  (Defined
over the character list so that proofs can evaluate it.) -/
def pyStrip (s : String) : String :=
  String.mk (((s.toList.dropWhile Char.isWhitespace).reverse.dropWhile
    Char.isWhitespace).reverse)

/-- Python `c in s` for a single character. -/
def strContains (s : String) (c : Char) : Bool := s.toList.contains c

/-- Python `s.split(c)[0]`: everything before the first `c`. -/
def before (c : Char) (s : String) : String := String.mk (s.toList.takeWhile (· ≠ c))

/-- Python `s.split("T")[0]`, used to compare stored ISO period
datetimes with bare dates. -/
def splitT (s : String) : String := before 'T' s

/-! ### Calendar dates -/
structure Ymd where
  year : Nat
  month : Nat
  day : Nat
deriving Repr, DecidableEq

def isLeapYear (y : Nat) : Bool := y % 4 == 0 && (y % 100 != 0 || y % 400 == 0)

def daysInMonth (y m : Nat) : Nat :=
  if m = 2 then (if isLeapYear y then 29 else 28)
  else if m = 4 ∨ m = 6 ∨ m = 9 ∨ m = 11 then 30
  else 31

/-- Chronological order on calendar dates (lexicographic on
year, month, day), matching Python `date` comparison. -/
def ymdLe (a b : Ymd) : Bool :=
  if a.year ≠ b.year then decide (a.year < b.year)
  else if a.month ≠ b.month then decide (a.month < b.month)
  else decide (a.day ≤ b.day)

def digitsToNat (cs : List Char) : Nat :=
  cs.foldl (fun a c => a * 10 + (c.toNat - 48)) 0

def takeDigits (cs : List Char) : List Char × List Char :=
  (cs.takeWhile Char.isDigit, cs.dropWhile Char.isDigit)

/-- Parse a leading `YYYY-M[M]-D[D]` calendar date (as CPython
`strptime("%Y-%m-%d")` / `fromisoformat` accept on well-formed input),
validating month and day ranges against the real calendar; returns the
date and the unconsumed characters. -/
def parseDatePart (cs : List Char) : Option (Ymd × List Char) :=
  let (ys, r1) := takeDigits cs
  if ys.length ≠ 4 then none else
  match r1 with
  | '-' :: r2 =>
    let (ms, r3) := takeDigits r2
    if ms.length = 0 ∨ 2 < ms.length then none else
    match r3 with
    | '-' :: r4 =>
      let (ds, r5) := takeDigits r4
      if ds.length = 0 ∨ 2 < ds.length then none else
      let y := digitsToNat ys
      let m := digitsToNat ms
      let d := digitsToNat ds
      if 1 ≤ m ∧ m ≤ 12 ∧ 1 ≤ d ∧ d ≤ daysInMonth y m then some (⟨y, m, d⟩, r5)
      else none
    | _ => none
  | _ => none

/-- CPython `strptime("%Y-%m-%d")`: the whole string must be a date. -/
def parseYMD (s : String) : Option Ymd :=
  match parseDatePart s.toList with
  | some (d, []) => some d
  | _ => none

structure DateTimeVal where
  date : Ymd
  hour : Nat
  minute : Nat
  second : Nat
deriving Repr, DecidableEq

def parse2d : List Char → Option (Nat × List Char)
  | a :: b :: r => if a.isDigit && b.isDigit then some (digitsToNat [a, b], r) else none
  | _ => none

/-- CPython `datetime.fromisoformat` on the shapes this program feeds it:
a bare date, or a date plus `T HH:MM[:SS]`. -/
def parseIsoDatetime (s : String) : Option DateTimeVal :=
  match parseDatePart s.toList with
  | some (d, []) => some ⟨d, 0, 0, 0⟩
  | some (d, 'T' :: rest) =>
    match parse2d rest with
    | some (hh, ':' :: r2) =>
      match parse2d r2 with
      | some (mm, []) => if hh ≤ 23 ∧ mm ≤ 59 then some ⟨d, hh, mm, 0⟩ else none
      | some (mm, ':' :: r3) =>
        match parse2d r3 with
        | some (ss, []) =>
          if hh ≤ 23 ∧ mm ≤ 59 ∧ ss ≤ 59 then some ⟨d, hh, mm, ss⟩ else none
        | _ => none
      | _ => none
    | _ => none
  | _ => none

def padNat (w n : Nat) : String :=
  let s := toString n
  String.mk (List.replicate (w - s.length) '0') ++ s

def fmtDate (d : Ymd) : String :=
  padNat 4 d.year ++ "-" ++ padNat 2 d.month ++ "-" ++ padNat 2 d.day

/-- CPython `strftime("%Y-%m-%d %H:%M:%S")`. -/
def fmtDateTime (t : DateTimeVal) : String :=
  fmtDate t.date ++ " " ++ padNat 2 t.hour ++ ":" ++ padNat 2 t.minute ++ ":" ++
    padNat 2 t.second

/-- Embedding of `normalize_datetime_for_comparison` (src lines
303-331): falsy input gives `None`; otherwise strip, drop timezone /
milliseconds, parse (ISO when a `T` is present, bare date otherwise)
and reformat; parse failure gives `None`. -/
def normalize_datetime_for_comparison (dtString : Option String) : Option String :=
  match dtString with
  | none => none
  | some s0 =>
    if s0.isEmpty then none else
    let s := pyStrip s0
    if strContains s 'T' then
      let clean := before '.' (before 'Z' (before '+' s))
      (parseIsoDatetime clean).map fmtDateTime
    else
      let clean := before ' ' s
      (parseYMD clean).map (fun d => fmtDateTime ⟨d, 0, 0, 0⟩)

/-! ### Data model (server-side records and fetched dictionaries) -/
/-- A server-side timesheet row; `payrollRecordId` is the back-reference
to a payroll record. -/
structure TsNode where
  id : String
  employeeIdVal : String
  approved : PyVal
  timesheetDate : Option String
  employeePin : Option String
  clockDatetime : Option String
  clockOutDatetime : Option String
  payrollRecordId : Option String
deriving Repr, DecidableEq

/-- A server-side payroll row. `relatedTimesheets` is the relation
field listing linked timesheet ids, as the GraphQL layer reports it. -/
structure PayrollNode where
  id : String
  employeeIdVal : String
  payPeriodStart : String
  payPeriodEnd : String
  status : String
  relatedTimesheets : List String
deriving Repr, DecidableEq

structure EmployeeNode where
  id : String
  employeeIdVal : String
  payRate : Option Rat
deriving Repr, DecidableEq

/-- The external platform state the run reads and writes. -/
structure Db where
  timesheets : List TsNode
  payrolls : List PayrollNode
  employees : List EmployeeNode
deriving Repr, DecidableEq

/-- The dictionary `get_all_timesheets` builds for each record (src
lines 890-906): `payroll_processed` is derived from presence of the
`payrollRecord` relation, not read from a stored flag. -/
structure FetchedTs where
  id : String
  employeeId : String
  approved : PyVal
  payrollProcessed : Bool
  timesheetDate : Option String
  employeePin : Option String
  clockDatetime : Option String
  clockOutDatetime : Option String
deriving Repr, DecidableEq

def toFetched (t : TsNode) : FetchedTs :=
  { id := t.id, employeeId := t.employeeIdVal, approved := t.approved,
    payrollProcessed := t.payrollRecordId.isSome,
    timesheetDate := t.timesheetDate, employeePin := t.employeePin,
    clockDatetime := t.clockDatetime, clockOutDatetime := t.clockOutDatetime }

/-- Embedding of `get_all_timesheets` (src lines 813-918). -/
def get_all_timesheets (db : Db) : List FetchedTs := db.timesheets.map toFetched

structure PayPeriodS where
  startDate : String
  endDate : String
deriving Repr, DecidableEq

/-- Timesheet-date parsing in `get_approved_timesheets` (src lines
952-959): ISO form when a `T` is present (timezone suffix stripped),
else a bare `YYYY-MM-DD` before any space. -/
def parseTsDate (s : String) : Option Ymd :=
  if strContains s 'T' then (parseIsoDatetime (before 'Z' (before '+' s))).map (·.date)
  else parseYMD (before ' ' s)

/-- Embedding of `get_approved_timesheets` (src lines 920-975): keep
records whose raw `approved` value is truthy and that are not yet
linked; when a pay period is given, additionally require the parsed
timesheet date to fall within it (records whose dates fail to parse
are skipped). -/
def get_approved_timesheets (db : Db) (payPeriod : Option PayPeriodS) : List FetchedTs :=
  let allTs := get_all_timesheets db
  let approved := allTs.filter (fun ts => pyTruthy ts.approved && !ts.payrollProcessed)
  match payPeriod with
  | none => approved
  | some pp =>
    if pp.startDate.isEmpty || pp.endDate.isEmpty then approved
    else approved.filter (fun ts =>
      match ts.timesheetDate with
      | none => false
      | some ds =>
        if ds.isEmpty then false else
        match parseTsDate ds, parseYMD pp.startDate, parseYMD pp.endDate with
        | some d, some s, some e => ymdLe s d && ymdLe d e
        | _, _, _ => false)

/-! ### Claim C2: the approval predicate -/
def asciiLowerChar (c : Char) : Char :=
  if 65 ≤ c.toNat && c.toNat ≤ 90 then Char.ofNat (c.toNat + 32) else c

def lowerStr (s : String) : String := String.mk (s.toList.map asciiLowerChar)

/-- The approval predicate exactly as the specification words it:
true only for the boolean `true` or a case-insensitive string
`"true"`.  Stated for comparison with the code's actual filter. -/
def spec_is_approved : PyVal → Bool
  | .pybool true => true
  | .pystr s => lowerStr s == "true"
  | _ => false

/-- Concrete database for the C2 counterexample: a single unlinked
timesheet whose raw `approved` value is the string `"False"`. -/
def dbC2 : Db :=
  { timesheets := [
      { id := "T1", employeeIdVal := "0002", approved := .pystr "False",
        timesheetDate := some "2026-01-13", employeePin := some "0002",
        clockDatetime := none, clockOutDatetime := none, payrollRecordId := none }],
    payrolls := [], employees := [] }

/-! ### Claim C9: the GraphQL retry wrapper (src lines 36-142) -/
def MAX_RETRIES : Nat := 3

def RETRY_DELAY : Nat := 2

structure GqlBody where
  errors : Option (List String)
  data : Option String
deriving Repr, DecidableEq

/-- What one HTTP attempt can produce: a response with a status code
and JSON body, a request timeout, or a connection error. -/
inductive GqlResponse where
  | http (status : Nat) (body : GqlBody)
  | timeout
  | connError
deriving Repr, DecidableEq

/-- Result of `run_graphql_query`: the returned `data` payload or a
raised exception message, with the back-off sleeps performed (seconds,
in order). -/
inductive QueryOutcome where
  | success (payload : String) (sleeps : List Nat)
  | failure (msg : String) (sleeps : List Nat)
deriving Repr, DecidableEq

def QueryOutcome.addSleep (t : Nat) : QueryOutcome → QueryOutcome
  | .success p s => .success p (t :: s)
  | .failure m s => .failure m (t :: s)

/-- Embedding of `run_graphql_query` (src lines 62-142) over the
sequence of responses the network produces for successive attempts:
429, 5xx, timeout and connection errors retry with sleep
`RETRY_DELAY * (retry_count + 1)` while `retry_count < MAX_RETRIES`
and raise after that; 401 raises at once; other non-200 statuses
raise; a 200 body with an `errors` key raises; otherwise the `data`
field is returned. -/
def run_graphql_query (responses : Nat → GqlResponse) (retryCount : Nat) : QueryOutcome :=
  match responses retryCount with
  | .timeout =>
    if _h : retryCount < MAX_RETRIES then
      (run_graphql_query responses (retryCount + 1)).addSleep (RETRY_DELAY * (retryCount + 1))
    else .failure "Request timeout after retries" []
  | .connError =>
    if _h : retryCount < MAX_RETRIES then
      (run_graphql_query responses (retryCount + 1)).addSleep (RETRY_DELAY * (retryCount + 1))
    else .failure "Connection error after retries" []
  | .http status body =>
    if status = 429 then
      if _h : retryCount < MAX_RETRIES then
        (run_graphql_query responses (retryCount + 1)).addSleep (RETRY_DELAY * (retryCount + 1))
      else .failure "Rate limit exceeded after retries" []
    else if 500 ≤ status then
      if _h : retryCount < MAX_RETRIES then
        (run_graphql_query responses (retryCount + 1)).addSleep (RETRY_DELAY * (retryCount + 1))
      else .failure "Server error after retries" []
    else if status = 401 then .failure "Authentication failed" []
    else if status ≠ 200 then .failure "API error" []
    else
      match body.errors with
      | some _ => .failure "GraphQL error" []
      | none =>
        match body.data with
        | some d => .success d []
        | none => .failure "KeyError: data" []
termination_by MAX_RETRIES + 1 - retryCount
decreasing_by all_goals omega

/-- The response classes the wrapper retries. -/
def transientResponse (r : GqlResponse) : Prop :=
  r = .timeout ∨ r = .connError ∨ (∃ b, r = .http 429 b) ∨
    (∃ s b, r = .http s b ∧ 500 ≤ s)

/-! ### Validation pipeline (src lines 241-558) -/
/-- Embedding of `validate_timesheet` (src lines 241-271).  The
`shiftHoursWorked` numeric check always passes because the transport
delivers that field as a JSON number or null, and `float` succeeds on
every number; hours are otherwise used only in log output, so the
field is omitted from the model. -/
def validate_timesheet (ts : FetchedTs) : Bool × Option String :=
  if ts.id.isEmpty then (false, some "Missing timesheet ID")
  else if ts.employeeId.isEmpty then (false, some "Missing employee id")
  else if ts.timesheetDate.isNone then (false, some "Missing timesheet date")
  else if ts.employeePin.isNone then (false, some "Missing employee pin")
  else (true, none)

/-- Embedding of `validate_pay_period` (src lines 274-300). -/
def validate_pay_period (pp : PayPeriodS) : Bool × Option String :=
  if pp.startDate.isEmpty then (false, some "Missing start date")
  else if pp.endDate.isEmpty then (false, some "Missing end date")
  else match parseYMD pp.startDate, parseYMD pp.endDate with
    | some s, some e =>
      if ymdLe s e then (true, none)
      else (false, some "start date must be before or equal to end date")
    | _, _ => (false, some "Invalid date format")

/-- The `matching_payroll` dictionary `find_existing_payroll` returns
(src lines 1226-1233); the `existing_hours` bookkeeping is omitted
because hours feed only log output. -/
structure ExistingPayroll where
  id : String
  employeeId : String
  payPeriodStart : String
  payPeriodEnd : String
  relatedTimesheetIds : List String
deriving Repr, DecidableEq

/-- One entry of `grouped_timesheets` (src lines 1584-1592), with the
`existing_payroll` key the pre-check phase may add (src line 1633). -/
structure TsGroup where
  employeeId : String
  employeePin : String
  payPeriod : PayPeriodS
  timesheets : List FetchedTs
  existingPayroll : Option ExistingPayroll
deriving Repr, DecidableEq

/-- The normalized `clock_in|clock_out` key built per timesheet by
`validate_no_duplicate_clock_times` (src lines 489-505); `none` when
either clock value is absent, falsy, or fails to normalize (those
records are skipped). -/
def clockPairKey (ts : FetchedTs) : Option String :=
  match ts.clockDatetime, ts.clockOutDatetime with
  | some ci, some co =>
    if ci.isEmpty || co.isEmpty then none
    else
      match normalize_datetime_for_comparison (some ci),
            normalize_datetime_for_comparison (some co) with
      | some cin, some con => some (cin ++ "|" ++ con)
      | _, _ => none
  | _, _ => none

/-- One step of the duplicate-clock-pair fold: the accumulator is the
(`clock_time_pairs` map as an association list, accumulated errors). -/
def dupClockStep (acc : List (String × String) × List String) (ts : FetchedTs) :
    List (String × String) × List String :=
  match clockPairKey ts with
  | none => acc
  | some key =>
    match acc.1.find? (fun p => p.1 == key) with
    | some p =>
      (acc.1, acc.2 ++ ["CRITICAL: Duplicate clock times found: timesheet " ++ ts.id ++
        " has same clock in/out as timesheet " ++ p.2])
    | none => (acc.1 ++ [(key, ts.id)], acc.2)

/-- Embedding of `validate_no_duplicate_clock_times` (src lines
474-517). -/
def validate_no_duplicate_clock_times (timesheets : List FetchedTs) : Bool × List String :=
  let res := timesheets.foldl dupClockStep ([], [])
  (res.2.isEmpty, res.2)

/-- The dictionary `get_all_payroll` builds per record (src lines
1043-1051). -/
structure PayrollDict where
  id : String
  employeeId : String
  payPeriodStart : String
  payPeriodEnd : String
  status : String
deriving Repr, DecidableEq

/-- Embedding of `get_all_payroll` (src lines 977-1067) without an
employee filter, as the run calls it. -/
def get_all_payroll (db : Db) : List PayrollDict :=
  db.payrolls.map (fun p =>
    { id := p.id, employeeId := p.employeeIdVal, payPeriodStart := p.payPeriodStart,
      payPeriodEnd := p.payPeriodEnd, status := p.status })

/-- First pass of `validate_no_duplicate_payroll_per_employee` (src
lines 366-399): build the `(employee, period)` map from existing
payroll records of the current period, flagging duplicate pairs of
distinct record ids. -/
def dupPayrollExistingStep (currentPayPeriod : Option PayPeriodS)
    (acc : List (String × String) × List String) (payroll : PayrollDict) :
    List (String × String) × List String :=
  let periodStart := splitT payroll.payPeriodStart
  let periodEnd := splitT payroll.payPeriodEnd
  let filterActive :=
    match currentPayPeriod with
    | some pp => !pp.startDate.isEmpty && !pp.endDate.isEmpty
    | none => false
  let skipOther :=
    filterActive &&
      (match currentPayPeriod with
       | some pp => periodStart != pp.startDate || periodEnd != pp.endDate
       | none => false)
  if skipOther then acc
  else if payroll.employeeId.isEmpty || periodStart.isEmpty || periodEnd.isEmpty then acc
  else
    let empId := pyStrip payroll.employeeId
    let key := empId ++ "_" ++ periodStart ++ "_" ++ periodEnd
    match acc.1.find? (fun p => p.1 == key) with
    | some p =>
      if p.2 != payroll.id then
        (acc.1, acc.2 ++ ["CRITICAL: Duplicate payroll record found for employee " ++ empId])
      else acc
    | none => (acc.1 ++ [(key, payroll.id)], acc.2)

/-- Second pass of `validate_no_duplicate_payroll_per_employee` (src
lines 401-432): check groups about to be written against the existing
map and against each other (creates only). -/
def dupPayrollGroupStep (pmap : List (String × String))
    (acc : List (String × String) × List String) (kv : String × TsGroup) :
    List (String × String) × List String :=
  let group := kv.2
  let empRaw := if group.employeeId.isEmpty then group.employeePin else group.employeeId
  let periodStart := group.payPeriod.startDate
  let periodEnd := group.payPeriod.endDate
  if empRaw.isEmpty || periodStart.isEmpty || periodEnd.isEmpty then acc
  else
    let empId := pyStrip empRaw
    let checkKey := empId ++ "_" ++ periodStart ++ "_" ++ periodEnd
    let errors1 :=
      if (pmap.find? (fun p => p.1 == checkKey)).isSome && group.existingPayroll.isNone then
        acc.2 ++ ["CRITICAL: Payroll record already exists for employee " ++ empId]
      else acc.2
    if group.existingPayroll.isNone then
      match acc.1.find? (fun p => p.1 == checkKey) with
      | some _ =>
        (acc.1, errors1 ++
          ["CRITICAL: Multiple payroll records would be created for employee " ++ empId])
      | none => (acc.1 ++ [(checkKey, kv.1)], errors1)
    else (acc.1, errors1)

/-- Embedding of `validate_no_duplicate_payroll_per_employee` (src
lines 334-434). -/
def validate_no_duplicate_payroll_per_employee (groups : List (String × TsGroup))
    (existingPayrollRecords : List PayrollDict) (currentPayPeriod : Option PayPeriodS) :
    Bool × List String :=
  let firstPass := existingPayrollRecords.foldl (dupPayrollExistingStep currentPayPeriod) ([], [])
  let secondPass := groups.foldl (dupPayrollGroupStep firstPass.1) ([], firstPass.2)
  (secondPass.2.isEmpty, secondPass.2)

/-- Embedding of `validate_same_pay_period_for_all` (src lines
437-471). -/
def validate_same_pay_period_for_all (groups : List (String × TsGroup)) :
    Bool × Option String :=
  match groups with
  | [] => (true, none)
  | (_, first) :: _ =>
    let refStart := first.payPeriod.startDate
    let refEnd := first.payPeriod.endDate
    match groups.find? (fun kv =>
        kv.2.payPeriod.startDate != refStart || kv.2.payPeriod.endDate != refEnd) with
    | some kv =>
      (false, some ("CRITICAL: Pay period mismatch for employee " ++ kv.2.employeeId))
    | none => (true, none)

/-- The per-group accumulation of duplicate-clock errors in
`validate_pre_upload` (src lines 551-556). -/
def clockErrStep (acc : List String) (kv : String × TsGroup) : List String :=
  let r := validate_no_duplicate_clock_times kv.2.timesheets
  acc ++ (if r.1 then [] else r.2)

/-- Embedding of `validate_pre_upload` (src lines 520-558): the three
validations run in order and their errors accumulate. -/
def validate_pre_upload (groups : List (String × TsGroup))
    (existingPayrollRecords : List PayrollDict) (currentPayPeriod : Option PayPeriodS) :
    Bool × List String :=
  let r1 := validate_no_duplicate_payroll_per_employee groups existingPayrollRecords
    currentPayPeriod
  let all1 := if r1.1 then [] else r1.2
  let r2 := validate_same_pay_period_for_all groups
  let all2 := all1 ++ (if r2.1 then [] else [r2.2.getD ""])
  let all3 := groups.foldl clockErrStep all2
  (all3.isEmpty, all3)

/-- Embedding of `verify_post_upload` (src lines 561-716) over the
re-read payroll collection: find the record by id, then compare the
employee id, the `T`-stripped period bounds, and the two set
differences of timesheet ids. -/
def verify_post_upload (payrolls : List PayrollNode) (payrollId : String)
    (expectedEmployeeId : String) (expectedPayPeriod : PayPeriodS)
    (expectedTimesheetIds : List String) : Bool × List String :=
  match payrolls.find? (fun p => p.id == payrollId) with
  | none => (false, ["CRITICAL: Payroll record " ++ payrollId ++ " not found after creation"])
  | some node =>
    let e1 := if node.employeeIdVal != expectedEmployeeId
      then ["CRITICAL: Employee ID mismatch"] else []
    let e2 := if splitT node.payPeriodStart != expectedPayPeriod.startDate
      then ["CRITICAL: Pay period start mismatch"] else []
    let e3 := if splitT node.payPeriodEnd != expectedPayPeriod.endDate
      then ["CRITICAL: Pay period end mismatch"] else []
    let missing := expectedTimesheetIds.filter (fun i => !node.relatedTimesheets.contains i)
    let extra := node.relatedTimesheets.filter (fun i => !expectedTimesheetIds.contains i)
    let e4 := if !missing.isEmpty then ["CRITICAL: Missing timesheets in payroll"] else []
    let e5 := if !extra.isEmpty then ["WARNING: Extra timesheets in payroll"] else []
    let errors := e1 ++ e2 ++ e3 ++ e4 ++ e5
    (errors.isEmpty, errors)

/-! ### Reconciliation engine (src lines 719-1532) -/
/-- Resolution of a timesheet's `payrollRecord` GraphQL relation: the
payroll node its back-reference points to, if any. -/
def resolvePayroll (db : Db) (backref : Option String) : Option PayrollNode :=
  match backref with
  | none => none
  | some pid => db.payrolls.find? (fun p => p.id == pid)

/-- The per-timesheet check inside `find_existing_payroll`'s scan (src
lines 1194-1235): the timesheet must be one of the group's, be linked
to a payroll record with a truthy id, and that payroll must match the
expected employee pin and the expected period (otherwise the scan
continues). -/
def tsLinksMatchingPayroll (db : Db) (employeePin : String) (pp : PayPeriodS)
    (timesheetIds : List String) (t : TsNode) : Option PayrollNode :=
  if timesheetIds.contains t.id then
    match resolvePayroll db t.payrollRecordId with
    | some p =>
      if p.id.isEmpty then none
      else if p.employeeIdVal != employeePin then none
      else if splitT p.payPeriodStart != pp.startDate ||
          splitT p.payPeriodEnd != pp.endDate then none
      else some p
    | none => none
  else none

/-- Embedding of `find_existing_payroll` (src lines 1098-1324): scan
all timesheets for the first of the group's ids linked to a matching
payroll record; the relation set is taken from that payroll record's
`relatedTimesheets` field as returned by the query. -/
def find_existing_payroll (db : Db) (employeePin : String) (pp : PayPeriodS)
    (timesheetIds : List String) : Option ExistingPayroll :=
  (db.timesheets.findSome? (tsLinksMatchingPayroll db employeePin pp timesheetIds)).map
    (fun p => { id := p.id, employeeId := p.employeeIdVal,
                payPeriodStart := p.payPeriodStart, payPeriodEnd := p.payPeriodEnd,
                relatedTimesheetIds := p.relatedTimesheets })

/-- Embedding of `get_employee_pay_rate` (src lines 729-811). -/
def get_employee_pay_rate (db : Db) (employeeId : String) : Rat :=
  match db.employees.find? (fun e => e.employeeIdVal == employeeId) with
  | some e => e.payRate.getD 0
  | none => 0

/-- The GraphQL mutations the run can send. -/
inductive Mutation where
  | createPayroll (employeeIdVal : String) (payPeriodStart payPeriodEnd : String)
      (payRate : Rat) (relatedTimesheetsId : List String)
  | updatePayroll (id : String) (relatedTimesheetsId : List String)
  | updateTimesheets (id : String)
deriving Repr, DecidableEq

def isMarkMutation : Mutation → Bool
  | .updateTimesheets _ => true
  | _ => false

/-- The `isoformat()` of a bare date at midnight in the Puerto Rico
timezone (UTC-4, no daylight saving), as `create_payroll_record`
formats the period bounds (src lines 1377-1393). -/
def toIsoMidnight (d : Ymd) : String := fmtDate d ++ "T00:00:00-04:00"

/-- Embedding of `create_payroll_record` (src lines 1326-1434):
validate the pin, fetch the pay rate once, collect truthy timesheet
ids, adopt the first mismatching timesheet pin, parse the period
bounds (a parse failure raises), and emit the `createPayroll`
mutation.  The payment date and total hours are computed only for log
output; only the end-date parse failure they entail is observable. -/
def create_payroll_record (db : Db) (employeePin : String) (timesheets : List FetchedTs)
    (pp : PayPeriodS) : Except String Mutation :=
  if employeePin.isEmpty then
    .error "CRITICAL: Cannot create payroll - employee pin is missing"
  else
    let pin := pyStrip employeePin
    let payRate := get_employee_pay_rate db pin
    let timesheetIds := (timesheets.map (·.id)).filter (fun i => !i.isEmpty)
    if timesheetIds.isEmpty then
      .error "CRITICAL: Cannot create payroll - no valid timesheet IDs"
    else
      let pin' :=
        match timesheets.find? (fun ts =>
            match ts.employeePin with
            | some p => !p.isEmpty && pyStrip p != pin
            | none => false) with
        | some ts => pyStrip (ts.employeePin.getD "")
        | none => pin
      match parseYMD pp.endDate with
      | none => .error "ValueError: invalid end date"
      | some ed =>
        match parseYMD pp.startDate with
        | none => .error "ValueError: invalid start date"
        | some sd =>
          .ok (.createPayroll pin' (toIsoMidnight sd) (toIsoMidnight ed) payRate timesheetIds)

/-- Embedding of `update_payroll_record` (src lines 1436-1502): ids
already linked are dropped from the incoming list; when nothing new
remains, no mutation is sent; otherwise the union of the existing ids
(Python builds a set of them; we keep first occurrences) and the new
ids is written.  No id is ever removed and no back-reference is
cleared. -/
def update_payroll_record (payrollRecord : ExistingPayroll) (newTimesheets : List FetchedTs) :
    Option Mutation :=
  let existingIds := payrollRecord.relatedTimesheetIds.dedup
  let newIds := (newTimesheets.map (·.id)).filter
    (fun i => !i.isEmpty && !payrollRecord.relatedTimesheetIds.contains i)
  if newIds.isEmpty then none
  else some (.updatePayroll payrollRecord.id (existingIds ++ newIds))

/-- Body of `mark_timesheets_processed` (src lines 1504-1532): one
`updateTimesheets` mutation per id. -/
def mark_timesheets_processed (timesheetIds : List String) : List Mutation :=
  timesheetIds.map .updateTimesheets

/-- Number of parameters `mark_timesheets_processed` accepts besides
`self` (src line 1504: `def mark_timesheets_processed(self, timesheet_ids)`). -/
def markTimesheetsProcessedParamCount : Nat := 1

/-- Number of positional arguments passed at its only call site (src
line 1740: `self.mark_timesheets_processed(timesheet_ids, payroll_id)`). -/
def markTimesheetsProcessedCallArgCount : Nat := 2

/-- A fresh record id the platform assigns on `createPayroll`. -/
def freshPayrollId (db : Db) : String := "created-" ++ toString db.payrolls.length

/-- Server semantics of one mutation: `createPayroll` appends a node
and links the listed timesheets; `updatePayroll` overwrites the
relation field and links the listed timesheets; `updateTimesheets`
(payrollProcessed := true) touches no field this model reads, because
`get_all_timesheets` derives processed-ness from the relation.
Returns the id the mutation reports. -/
def applyMutation (db : Db) (m : Mutation) : Db × Option String :=
  match m with
  | .createPayroll emp ps pe _rate ids =>
    let newId := freshPayrollId db
    let newNode : PayrollNode :=
      { id := newId, employeeIdVal := emp, payPeriodStart := ps, payPeriodEnd := pe,
        status := "PENDING", relatedTimesheets := ids }
    ({ db with
        payrolls := db.payrolls ++ [newNode],
        timesheets := db.timesheets.map (fun t =>
          if ids.contains t.id then { t with payrollRecordId := some newId } else t) },
      some newId)
  | .updatePayroll pid ids =>
    ({ db with
        payrolls := db.payrolls.map (fun p =>
          if p.id == pid then { p with relatedTimesheets := ids } else p),
        timesheets := db.timesheets.map (fun t =>
          if ids.contains t.id then { t with payrollRecordId := some pid } else t) },
      some pid)
  | .updateTimesheets tid => (db, some tid)

/-! ### The orchestrating run (src lines 1534-1765) -/
def groupKey (pin : String) (pp : PayPeriodS) : String :=
  pin ++ "_" ++ pp.startDate ++ "_" ++ pp.endDate

/-- Insert a validated timesheet into the (insertion-ordered) group
map (src lines 1582-1592). -/
def addToGroups (groups : List (String × TsGroup)) (key pin : String) (pp : PayPeriodS)
    (ts : FetchedTs) : List (String × TsGroup) :=
  match groups.find? (fun kv => kv.1 == key) with
  | some _ => groups.map (fun kv =>
      if kv.1 == key then (kv.1, { kv.2 with timesheets := kv.2.timesheets ++ [ts] }) else kv)
  | none => groups ++
      [(key, { employeeId := pin, employeePin := pin, payPeriod := pp,
               timesheets := [ts], existingPayroll := none })]

/-- One step of the grouping loop (src lines 1561-1592): skip invalid
timesheets and missing pins, trim the pin, group under the current
period. -/
def groupStep (pp : PayPeriodS) (groups : List (String × TsGroup)) (ts : FetchedTs) :
    List (String × TsGroup) :=
  if !(validate_timesheet ts).1 then groups
  else
    match ts.employeePin with
    | none => groups
    | some pinRaw =>
      if pinRaw.isEmpty then groups
      else
        let pin := pyStrip pinRaw
        addToGroups groups (groupKey pin pp) pin pp ts

/-- The grouping loop (src lines 1559-1592). -/
def group_timesheets (approved : List FetchedTs) (pp : PayPeriodS) :
    List (String × TsGroup) :=
  approved.foldl (groupStep pp) []

/-- Result of the pre-check phase for one group (src lines 1600-1637):
the possibly-updated group dictionary and whether it belongs to
`groups_to_process`. -/
structure PrecheckedGroup where
  key : String
  group : TsGroup
  inProcess : Bool
deriving Repr, DecidableEq

/-- The pre-check for one group (src lines 1603-1637): look for an
existing payroll via the group's timesheets; when found, keep only
unlinked timesheets (skipping the group if none remain) and remember
the payroll on the group dictionary. -/
def precheck_group (db : Db) (kv : String × TsGroup) : PrecheckedGroup :=
  let group := kv.2
  let timesheetIds := (group.timesheets.map (·.id)).filter (fun i => !i.isEmpty)
  if timesheetIds.isEmpty then ⟨kv.1, group, false⟩
  else
    match find_existing_payroll db group.employeePin group.payPeriod timesheetIds with
    | some ep =>
      let unlinked := group.timesheets.filter
        (fun ts => !ep.relatedTimesheetIds.contains ts.id)
      if unlinked.isEmpty then ⟨kv.1, group, false⟩
      else ⟨kv.1, { group with timesheets := unlinked, existingPayroll := some ep }, true⟩
    | none => ⟨kv.1, group, true⟩

/-- What processing one group produces: the database after its
mutations, the mutations sent, counter increments, a recorded
post-upload verification failure if any, and the exception message the
per-group handler caught if any. -/
structure GroupOutcome where
  db : Db
  mutations : List Mutation
  createdInc : Nat
  updatedInc : Nat
  processedInc : Nat
  verifyFailed : Option (String × String × List String)
  raisedError : Option String
deriving Repr, DecidableEq

/-- The tail of the per-group loop body after the create/update (src
lines 1714-1741): verify when the payroll id is truthy; on failure
record it and continue without marking; otherwise evaluate the
`mark_timesheets_processed` call, which passes two positional
arguments to a one-parameter method and therefore raises `TypeError`
before any mark mutation is sent (`processed_count` is never
incremented past it). -/
def after_write (db : Db) (muts : List Mutation) (cInc uInc : Nat) (payrollId : String)
    (employeePin employeeId : String) (pp : PayPeriodS) (timesheetIds : List String)
    (tsCount : Nat) : GroupOutcome :=
  let verifyRes :=
    if payrollId.isEmpty then none
    else some (verify_post_upload db.payrolls payrollId employeePin pp timesheetIds)
  match verifyRes with
  | some (false, errs) => ⟨db, muts, cInc, uInc, 0, some (payrollId, employeeId, errs), none⟩
  | _ =>
    if markTimesheetsProcessedCallArgCount = markTimesheetsProcessedParamCount then
      ⟨db, muts ++ mark_timesheets_processed timesheetIds, cInc, uInc, tsCount, none, none⟩
    else
      ⟨db, muts, cInc, uInc, 0, none,
        some "TypeError: mark_timesheets_processed takes 2 positional arguments"⟩

/-- The existing payroll used by the loop body (src lines 1694-1700):
the one the pre-check remembered on the group dictionary, else a fresh
`find_existing_payroll` double-check. -/
def effectiveExistingPayroll (db : Db) (kv : String × TsGroup)
    (employeePin : String) (timesheetIds : List String) : Option ExistingPayroll :=
  match kv.2.existingPayroll with
  | some ep => some ep
  | none => find_existing_payroll db employeePin kv.2.payPeriod timesheetIds

/-- The per-group loop body (src lines 1675-1747). -/
def process_group (db : Db) (kv : String × TsGroup) : GroupOutcome :=
  let group := kv.2
  let employeePin := if group.employeePin.isEmpty then group.employeeId else group.employeePin
  let employeeId := employeePin
  let payPeriod := group.payPeriod
  let timesheets := group.timesheets
  let timesheetIds := timesheets.map (·.id)
  if !(validate_pay_period payPeriod).1 then ⟨db, [], 0, 0, 0, none, none⟩
  else
    match effectiveExistingPayroll db kv employeePin timesheetIds with
    | some ep =>
      match update_payroll_record ep timesheets with
      | some mu =>
        let applied := applyMutation db mu
        after_write applied.1 [mu] 0 1 ep.id employeePin employeeId payPeriod
          timesheetIds timesheets.length
      | none =>
        after_write db [] 0 1 ep.id employeePin employeeId payPeriod
          timesheetIds timesheets.length
    | none =>
      match create_payroll_record db employeePin timesheets payPeriod with
      | .error e => ⟨db, [], 0, 0, 0, none, some e⟩
      | .ok mu =>
        let applied := applyMutation db mu
        after_write applied.1 [mu] 1 0 ((applied.2).getD "") employeePin employeeId
          payPeriod timesheetIds timesheets.length

/-- Result of a full run. `preUploadErrors = some errs` means the run
raised at pre-upload validation (src line 1664) with those errors;
`earlyReturn` means it returned before validation because nothing was
eligible. -/
structure RunResult where
  mutations : List Mutation
  dbFinal : Db
  createdCount : Nat
  updatedCount : Nat
  processedCount : Nat
  validationFailures : List (String × String × List String)
  preUploadErrors : Option (List String)
  earlyReturn : Bool
deriving Repr, DecidableEq

def runFoldStep (acc : RunResult) (kv : String × TsGroup) : RunResult :=
  let o := process_group acc.dbFinal kv
  { mutations := acc.mutations ++ o.mutations, dbFinal := o.db,
    createdCount := acc.createdCount + o.createdInc,
    updatedCount := acc.updatedCount + o.updatedInc,
    processedCount := acc.processedCount + o.processedInc,
    validationFailures := acc.validationFailures ++
      (match o.verifyFailed with | some f => [f] | none => []),
    preUploadErrors := none, earlyReturn := false }

/-- Embedding of `process_timesheets_to_payroll` (src lines 1534-1765)
for a given current pay period: fetch and filter, group, pre-check,
validate (raising aborts the run before any write), then process every
group of `grouped_timesheets` — the loop at src line 1675 iterates the
full group map, whose dictionaries the pre-check mutated in place. -/
def process_timesheets_to_payroll (db : Db) (currentPayPeriod : PayPeriodS) : RunResult :=
  let approved := get_approved_timesheets db (some currentPayPeriod)
  if approved.isEmpty then ⟨[], db, 0, 0, 0, [], none, true⟩
  else
    let grouped := group_timesheets approved currentPayPeriod
    let prechecked := grouped.map (precheck_group db)
    let groupsToProcess := prechecked.filter (·.inProcess)
    if groupsToProcess.isEmpty then ⟨[], db, 0, 0, 0, [], none, true⟩
    else
      let allExistingPayroll := get_all_payroll db
      let processList := groupsToProcess.map (fun pg => (pg.key, pg.group))
      let v := validate_pre_upload processList allExistingPayroll (some currentPayPeriod)
      if !v.1 then ⟨[], db, 0, 0, 0, [], some v.2, false⟩
      else
        (prechecked.map (fun pg => (pg.key, pg.group))).foldl runFoldStep
          ⟨[], db, 0, 0, 0, [], none, false⟩

/-! ### Claim C1: the update target set -/
/-- The target-set formula exactly as the specification words it:
`newTargetSet = (still-qualifying subset of the current relation set)
∪ (this run's group ids)`.  Stated for comparison with the code's
actual update. -/
def specNewTargetSet (currentRelationSet : Finset String) (stillQualifies : String → Bool)
    (groupIds : Finset String) : Finset String :=
  currentRelationSet.filter (fun i => stillQualifies i = true) ∪ groupIds

/-- C1 counterexample payroll record: two linked timesheets, of which
`T1` has had its approval revoked. -/
def epC1 : ExistingPayroll :=
  { id := "P1", employeeId := "0002", payPeriodStart := "2026-01-12T00:00:00-04:00",
    payPeriodEnd := "2026-01-25T00:00:00-04:00", relatedTimesheetIds := ["T1", "T2"] }

/-- C1 counterexample group: one new qualifying timesheet `T3`. -/
def newTsC1 : List FetchedTs :=
  [{ id := "T3", employeeId := "0002", approved := .pybool true, payrollProcessed := false,
     timesheetDate := some "2026-01-14", employeePin := some "0002",
     clockDatetime := none, clockOutDatetime := none }]

/-! ### Claim C3: the existing-record lookup -/
/-- The lookup exactly as the specification words it: scan the payroll
records for an (employee, canonical period) match, and recompute the
relation set by scanning all timesheets whose back-reference equals
that payroll's id.  Stated for comparison with the code's actual
lookup. -/
def spec_find_existing_payroll (db : Db) (employeePin : String) (pp : PayPeriodS) :
    Option ExistingPayroll :=
  (db.payrolls.find? (fun p => p.employeeIdVal == employeePin &&
      splitT p.payPeriodStart == pp.startDate && splitT p.payPeriodEnd == pp.endDate)).map
    (fun p => { id := p.id, employeeId := p.employeeIdVal,
                payPeriodStart := p.payPeriodStart, payPeriodEnd := p.payPeriodEnd,
                relatedTimesheetIds :=
                  (db.timesheets.filter (fun t => t.payrollRecordId == some p.id)).map
                    (·.id) })

def ppC3 : PayPeriodS := ⟨"2026-01-12", "2026-01-25"⟩

/-- C3 counterexample state (lookup): a payroll record matching
(employee, canonical period) exists, but no group timesheet is linked
to it. -/
def dbC3 : Db :=
  { timesheets := [
      { id := "T1", employeeIdVal := "0002", approved := .pybool true,
        timesheetDate := some "2026-01-13", employeePin := some "0002",
        clockDatetime := none, clockOutDatetime := none, payrollRecordId := none }],
    payrolls := [
      { id := "P1", employeeIdVal := "0002",
        payPeriodStart := "2026-01-12T00:00:00-04:00",
        payPeriodEnd := "2026-01-25T00:00:00-04:00", status := "PENDING",
        relatedTimesheets := ["T9"] }],
    employees := [] }

/-- C3 counterexample state (relation set): the group timesheet `T1`
is linked to `P1`, whose relation field also lists `T9`, but no
timesheet's back-reference equals `P1` except `T1`. -/
def dbC3b : Db :=
  { timesheets := [
      { id := "T1", employeeIdVal := "0002", approved := .pybool true,
        timesheetDate := some "2026-01-13", employeePin := some "0002",
        clockDatetime := none, clockOutDatetime := none, payrollRecordId := some "P1" }],
    payrolls := [
      { id := "P1", employeeIdVal := "0002",
        payPeriodStart := "2026-01-12T00:00:00-04:00",
        payPeriodEnd := "2026-01-25T00:00:00-04:00", status := "PENDING",
        relatedTimesheets := ["T1", "T9"] }],
    employees := [] }

/-- The condition under which the code's scan accepts a timesheet:
it is one of the group's ids and its back-reference resolves to a
payroll record with a truthy id matching the expected employee and
period. -/
def linksMatching (db : Db) (employeePin : String) (pp : PayPeriodS)
    (timesheetIds : List String) (t : TsNode) : Prop :=
  t.id ∈ timesheetIds ∧ ∃ p, resolvePayroll db t.payrollRecordId = some p ∧
    p.id ≠ "" ∧ p.employeeIdVal = employeePin ∧
    splitT p.payPeriodStart = pp.startDate ∧ splitT p.payPeriodEnd = pp.endDate

def dbC4 : Db := { timesheets := [], payrolls := [], employees := [] }

/-- A group whose remembered payroll id `PX` does not exist, so the
re-read inside verification fails to find the record. -/
def kvC4 : String × TsGroup :=
  ("0002_2026-01-12_2026-01-25",
   { employeeId := "0002", employeePin := "0002",
     payPeriod := ⟨"2026-01-12", "2026-01-25"⟩,
     timesheets := [
       { id := "T3", employeeId := "0002", approved := .pybool true,
         payrollProcessed := false, timesheetDate := some "2026-01-14",
         employeePin := some "0002", clockDatetime := none, clockOutDatetime := none }],
     existingPayroll := some
       { id := "PX", employeeId := "0002",
         payPeriodStart := "2026-01-12T00:00:00-04:00",
         payPeriodEnd := "2026-01-25T00:00:00-04:00", relatedTimesheetIds := [] } })

/-! ### Claims C6 and C10: run-level failure handling -/
def ppC6 : PayPeriodS := ⟨"2026-01-12", "2026-01-25"⟩

/-- C6 counterexample state: employee `0002` has two approved
in-period timesheets with identical clock pairs; employee `0003` has
one clean approved in-period timesheet. -/
def dbC6 : Db :=
  { timesheets := [
      { id := "A1", employeeIdVal := "0002", approved := .pybool true,
        timesheetDate := some "2026-01-13", employeePin := some "0002",
        clockDatetime := some "2026-01-13T09:00:00",
        clockOutDatetime := some "2026-01-13T17:00:00", payrollRecordId := none },
      { id := "A2", employeeIdVal := "0002", approved := .pybool true,
        timesheetDate := some "2026-01-13", employeePin := some "0002",
        clockDatetime := some "2026-01-13T09:00:00",
        clockOutDatetime := some "2026-01-13T17:00:00", payrollRecordId := none },
      { id := "B1", employeeIdVal := "0003", approved := .pybool true,
        timesheetDate := some "2026-01-14", employeePin := some "0003",
        clockDatetime := some "2026-01-14T09:00:00",
        clockOutDatetime := some "2026-01-14T12:30:00", payrollRecordId := none }],
    payrolls := [], employees := [] }

/-- The fetched form of `dbC6`'s first two timesheets. -/
def fA1 : FetchedTs :=
  { id := "A1", employeeId := "0002", approved := .pybool true, payrollProcessed := false,
    timesheetDate := some "2026-01-13", employeePin := some "0002",
    clockDatetime := some "2026-01-13T09:00:00",
    clockOutDatetime := some "2026-01-13T17:00:00" }

def fA2 : FetchedTs :=
  { id := "A2", employeeId := "0002", approved := .pybool true, payrollProcessed := false,
    timesheetDate := some "2026-01-13", employeePin := some "0002",
    clockDatetime := some "2026-01-13T09:00:00",
    clockOutDatetime := some "2026-01-13T17:00:00" }

/-! ### Theorems for claims C7 and C8 -/
/-- C7: `calculate_biweekly_pay_period` maps the reference Monday to
the period `[ref, ref+13]`; `ref+13` maps to the same period; `ref+14`
to the next; `ref-1` to the previous; and for every date `d` the start
equals `ref + 14 * floor((mondayOfWeek d - ref) / 14)` with
`end = start + 13`, floor division toward negative infinity. -/
theorem calculate_biweekly_pay_period_spec :
    calculate_biweekly_pay_period referenceMonday =
      { startDate := referenceMonday, endDate := referenceMonday + 13 } ∧
    calculate_biweekly_pay_period (referenceMonday + 13) =
      calculate_biweekly_pay_period referenceMonday ∧
    calculate_biweekly_pay_period (referenceMonday + 14) =
      { startDate := referenceMonday + 14, endDate := referenceMonday + 27 } ∧
    calculate_biweekly_pay_period (referenceMonday - 1) =
      { startDate := referenceMonday - 14, endDate := referenceMonday - 1 } ∧
    ∀ d : Int,
      (calculate_biweekly_pay_period d).startDate =
        referenceMonday + 14 * Int.fdiv (mondayOfWeek d - referenceMonday) 14 ∧
      (calculate_biweekly_pay_period d).endDate =
        (calculate_biweekly_pay_period d).startDate + 13 := by
  refine ⟨by decide, by decide, by decide, by decide, fun d => ?_⟩
  simp [calculate_biweekly_pay_period, mondayOfWeek, pyWeekday, referenceMonday,
    Int.fdiv_eq_ediv _ (by norm_num : (0:Int) ≤ 14)]
  omega

/-- C8: `calculate_payment_date d` is always a Monday strictly after
`d`; a Sunday maps to `d+1` and a Monday to `d+7`, never `d`. -/
theorem calculate_payment_date_spec :
    ∀ d : Int,
      d < calculate_payment_date d ∧
      pyWeekday (calculate_payment_date d) = 0 ∧
      (pyWeekday d = 6 → calculate_payment_date d = d + 1) ∧
      (pyWeekday d = 0 → calculate_payment_date d = d + 7) := by
  intro d
  simp only [calculate_payment_date, pyWeekday, referenceMonday]
  split_ifs <;> refine ⟨by omega, by omega, fun h => by omega, fun h => by omega⟩

/-- Witness for C8's conditional parts: day 6 (a Sunday) maps to day 7,
and day 0 (the reference Monday) maps to day 7. -/
theorem calculate_payment_date_spec_witness :
    calculate_payment_date 6 = 6 + 1 ∧ calculate_payment_date 0 = 0 + 7 :=
  ⟨(calculate_payment_date_spec 6).2.2.1 (by decide),
   (calculate_payment_date_spec 0).2.2.2 (by decide)⟩

/-- Truthiness characterized structurally. -/
theorem pyTruthy_iff (v : PyVal) :
    pyTruthy v = true ↔ (v = .pybool true ∨ ∃ s, v = .pystr s ∧ s ≠ "") := by
  cases v with
  | pynone => simp [pyTruthy]
  | pybool b => cases b <;> simp [pyTruthy]
  | pystr s =>
    have he : (s.isEmpty = false) ↔ s ≠ "" := by
      rw [Bool.eq_false_iff, Ne, Ne, String.isEmpty_iff s]
    constructor
    · intro h
      refine Or.inr ⟨s, rfl, ?_⟩
      rw [← he]
      simpa [pyTruthy] using h
    · rintro (h | ⟨t, ht, hne⟩)
      · cases h
      · cases ht
        simp only [pyTruthy, Bool.not_eq_true']
        exact he.mpr hne

/-- C2 counterexample: the filtering step keeps a timesheet whose raw
`approved` value is the string `"False"`, although the claimed
predicate counts it as not approved — so the claimed equivalence fails
at this input. -/
theorem get_approved_timesheets_c2_counterexample :
    (get_approved_timesheets dbC2 none).map (·.id) = ["T1"] ∧
    spec_is_approved (.pystr "False") = false := by
  exact ⟨rfl, by decide⟩

/-- C2 amended: the filtering step counts a timesheet as approved iff
its raw value is Python-truthy — the boolean `true` or any non-empty
string, including `"False"`; `false`, `null` and the empty string do
not count. -/
theorem get_approved_timesheets_c2_amended :
    ∀ (db : Db) (ts : FetchedTs),
      ts ∈ get_approved_timesheets db none ↔
        ts ∈ get_all_timesheets db ∧
          (ts.approved = .pybool true ∨ ∃ s, ts.approved = .pystr s ∧ s ≠ "") ∧
          ts.payrollProcessed = false := by
  intro db ts
  simp only [get_approved_timesheets, List.mem_filter, Bool.and_eq_true,
    Bool.not_eq_true', ← pyTruthy_iff]

theorem run_graphql_query_retry_step (responses : Nat → GqlResponse) (rc : Nat)
    (h : transientResponse (responses rc)) (hrc : rc < MAX_RETRIES) :
    run_graphql_query responses rc =
      (run_graphql_query responses (rc + 1)).addSleep (RETRY_DELAY * (rc + 1)) := by
  rw [run_graphql_query]
  rcases h with h | h | ⟨b, h⟩ | ⟨s, b, h, hs⟩ <;> rw [h] <;>
    simp [hrc, show ∀ s : Nat, 500 ≤ s → ¬(s = 429) from by omega]
  · intro h429
    omega

theorem run_graphql_query_exhausted (responses : Nat → GqlResponse)
    (h : transientResponse (responses MAX_RETRIES)) :
    ∃ msg, run_graphql_query responses MAX_RETRIES = .failure msg [] := by
  have hlt : ¬ (MAX_RETRIES < MAX_RETRIES) := by omega
  rw [run_graphql_query]
  rcases h with h | h | ⟨b, h⟩ | ⟨s, b, h, hs⟩ <;> rw [h]
  · exact ⟨"Request timeout after retries", by simp [hlt]⟩
  · exact ⟨"Connection error after retries", by simp [hlt]⟩
  · exact ⟨"Rate limit exceeded after retries", by simp [hlt]⟩
  · exact ⟨"Server error after retries", by simp [hlt, hs, show s ≠ 429 from by omega]⟩

/-- C9: transient responses (429, 5xx, timeout, connection error) are
retried at most `MAX_RETRIES = 3` times, sleeping
`RETRY_DELAY * (attempt + 1)` seconds before each retry, and the call
raises once the cap is exceeded; a 401 raises immediately with zero
retries and zero sleeps; a 200 response without an `errors` key
returns the body's `data` field. -/
theorem run_graphql_query_spec :
    (∀ responses : Nat → GqlResponse,
      (∀ n, n ≤ MAX_RETRIES → transientResponse (responses n)) →
      ∃ msg, run_graphql_query responses 0 =
        .failure msg ((List.range MAX_RETRIES).map (fun k => RETRY_DELAY * (k + 1)))) ∧
    (∀ (responses : Nat → GqlResponse) (body : GqlBody),
      responses 0 = .http 401 body →
      run_graphql_query responses 0 = .failure "Authentication failed" []) ∧
    (∀ (responses : Nat → GqlResponse) (body : GqlBody) (d : String),
      responses 0 = .http 200 body → body.errors = none → body.data = some d →
      run_graphql_query responses 0 = .success d []) := by
  refine ⟨fun responses h => ?_, fun responses body h => ?_, fun responses body d h he hd => ?_⟩
  · obtain ⟨msg, h3⟩ := run_graphql_query_exhausted responses (h MAX_RETRIES le_rfl)
    refine ⟨msg, ?_⟩
    rw [run_graphql_query_retry_step responses 0 (h 0 (by norm_num)) (by norm_num [MAX_RETRIES]),
      run_graphql_query_retry_step responses 1 (h 1 (by norm_num [MAX_RETRIES]))
        (by norm_num [MAX_RETRIES]),
      run_graphql_query_retry_step responses 2 (h 2 (by norm_num [MAX_RETRIES]))
        (by norm_num [MAX_RETRIES])]
    have : (2 : Nat) + 1 = MAX_RETRIES := by norm_num [MAX_RETRIES]
    rw [this, h3]
    rfl
  · rw [run_graphql_query, h]
    simp
  · rw [run_graphql_query, h]
    simp [he, hd]

/-- Witness for C9 at concrete response sequences: ever-timeouts raise
after sleeps `[2, 4, 6]`; an immediate 401 raises with no sleep; an
immediate 200 with payload returns it. -/
theorem run_graphql_query_spec_witness :
    (∃ msg, run_graphql_query (fun _ => .timeout) 0 = .failure msg [2, 4, 6]) ∧
    run_graphql_query (fun _ => .http 401 ⟨none, none⟩) 0 =
      .failure "Authentication failed" [] ∧
    run_graphql_query (fun _ => .http 200 ⟨none, some "payload"⟩) 0 =
      .success "payload" [] := by
  refine ⟨?_, ?_, ?_⟩
  · obtain ⟨msg, hm⟩ := run_graphql_query_spec.1 (fun _ => .timeout)
      (fun n _ => Or.inl rfl)
    exact ⟨msg, by simpa [MAX_RETRIES, RETRY_DELAY, List.range_succ] using hm⟩
  · exact run_graphql_query_spec.2.1 (fun _ => .http 401 ⟨none, none⟩) ⟨none, none⟩ rfl
  · exact run_graphql_query_spec.2.2 (fun _ => .http 200 ⟨none, some "payload"⟩)
      ⟨none, some "payload"⟩ "payload" rfl rfl rfl

/-- C1 counterexample: with current relation set `[T1, T2]`, `T1`
revoked, and group `[T3]`, the claimed formula gives `set [T2, T3]`,
but `update_payroll_record` writes the set `[T1, T2, T3]` — the
revoked id is kept, not dropped. -/
theorem update_payroll_record_c1_counterexample :
    update_payroll_record epC1 newTsC1 = some (.updatePayroll "P1" ["T1", "T2", "T3"]) ∧
    (["T1", "T2", "T3"] : List String).toFinset ≠
      specNewTargetSet (["T1", "T2"] : List String).toFinset (fun i => i != "T1")
        (["T3"] : List String).toFinset ∧
    "T1" ∈ (["T1", "T2", "T3"] : List String).toFinset := by
  exact ⟨rfl, by decide, by decide⟩

/-- C1 amended: the relation set `update_payroll_record` writes is the
plain union of the current relation set and the group's (truthy) new
ids — the current set is always a subset of what is written, so no id
is ever removed; revoking approval on a linked timesheet does not
remove it, and no back-reference is cleared (the function emits no
timesheet mutation at all). -/
theorem update_payroll_record_c1_amended :
    ∀ (ep : ExistingPayroll) (newTs : List FetchedTs) (pid : String) (ids : List String),
      update_payroll_record ep newTs = some (.updatePayroll pid ids) →
      pid = ep.id ∧
      ids.toFinset = ep.relatedTimesheetIds.toFinset ∪
        ((newTs.map (·.id)).filter (fun i => !i.isEmpty)).toFinset ∧
      ep.relatedTimesheetIds.toFinset ⊆ ids.toFinset := by
  intro ep newTs pid ids h
  unfold update_payroll_record at h
  by_cases hn : ((newTs.map (·.id)).filter
      (fun i => !i.isEmpty && !ep.relatedTimesheetIds.contains i)).isEmpty
  · rw [if_pos hn] at h
    cases h
  · rw [if_neg hn] at h
    rw [Option.some_inj] at h
    obtain ⟨hpid, hids⟩ := Mutation.updatePayroll.inj h.symm
    subst hpid hids
    refine ⟨rfl, ?_, ?_⟩
    · ext i
      simp only [List.toFinset_append, Finset.mem_union, List.mem_toFinset,
        List.mem_dedup, List.mem_filter, List.contains, List.elem_eq_mem,
        Bool.not_eq_true', decide_eq_false_iff_not, Bool.and_eq_true]
      by_cases hi : i ∈ ep.relatedTimesheetIds
      · simp [hi]
      · simp [hi]
    · intro i hi
      simp only [List.toFinset_append, Finset.mem_union, List.mem_toFinset,
        List.mem_dedup] at *
      exact Or.inl hi

/-- Witness for C1's amended theorem at the concrete record: the write
keeps `T1` and `T2` and adds `T3`. -/
theorem update_payroll_record_c1_witness :
    "P1" = epC1.id ∧
    (["T1", "T2", "T3"] : List String).toFinset = epC1.relatedTimesheetIds.toFinset ∪
      ((newTsC1.map (·.id)).filter (fun i => !i.isEmpty)).toFinset ∧
    epC1.relatedTimesheetIds.toFinset ⊆ (["T1", "T2", "T3"] : List String).toFinset :=
  update_payroll_record_c1_amended epC1 newTsC1 "P1" ["T1", "T2", "T3"] rfl

/-- C3 counterexample: the claimed lookup (scan payroll records, then
recompute the relation set from back-references) disagrees with the
code on both halves: in `dbC3` the code finds nothing although a
matching payroll record exists, and in `dbC3b` the code returns the
payroll's cached relation field `[T1, T9]` while a back-reference scan
yields `[T1]`. -/
theorem find_existing_payroll_c3_counterexample :
    find_existing_payroll dbC3 "0002" ppC3 ["T1"] = none ∧
    (spec_find_existing_payroll dbC3 "0002" ppC3).isSome = true ∧
    (find_existing_payroll dbC3b "0002" ppC3 ["T1"]).map (·.relatedTimesheetIds) =
      some ["T1", "T9"] ∧
    (spec_find_existing_payroll dbC3b "0002" ppC3).map (·.relatedTimesheetIds) =
      some ["T1"] := by
  refine ⟨by decide, by decide, by decide, by decide⟩

theorem tsLinksMatchingPayroll_eq_none_iff (db : Db) (pin : String) (pp : PayPeriodS)
    (tsIds : List String) (t : TsNode) :
    tsLinksMatchingPayroll db pin pp tsIds t = none ↔
      ¬ linksMatching db pin pp tsIds t := by
  unfold tsLinksMatchingPayroll linksMatching
  by_cases hc : t.id ∈ tsIds
  · rw [if_pos (by simpa [List.contains, List.elem_eq_mem] using hc)]
    cases hr : resolvePayroll db t.payrollRecordId with
    | none => simp [hc]
    | some p =>
      simp only [Option.some.injEq, hc, true_and]
      constructor
      · intro h hm
        obtain ⟨q, hq, hid, hemp, hps, hpe⟩ := hm
        subst hq
        rw [if_neg (by simpa [String.isEmpty_iff] using hid),
          if_neg (by simp [hemp]), if_neg (by simp [hps, hpe])] at h
        cases h
      · intro h
        by_cases h1 : p.id.isEmpty
        · rw [if_pos h1]
        · rw [if_neg h1]
          by_cases h2 : (p.employeeIdVal != pin : Bool)
          · rw [if_pos h2]
          · rw [if_neg h2]
            by_cases h3 : (splitT p.payPeriodStart != pp.startDate ||
                splitT p.payPeriodEnd != pp.endDate : Bool)
            · rw [if_pos h3]
            · rw [if_neg h3]
              exfalso
              simp only [Bool.not_eq_true, bne_eq_false_iff_eq] at h2
              simp only [Bool.or_eq_true, bne_iff_ne, ne_eq, not_or, not_not] at h3
              exact h ⟨p, rfl, by simpa [String.isEmpty_iff] using h1, h2, h3.1, h3.2⟩
  · rw [if_neg (by simpa [List.contains, List.elem_eq_mem] using hc)]
    simp [hc]

theorem tsLinksMatchingPayroll_eq_some (db : Db) (pin : String) (pp : PayPeriodS)
    (tsIds : List String) (t : TsNode) (p : PayrollNode)
    (h : tsLinksMatchingPayroll db pin pp tsIds t = some p) :
    t.id ∈ tsIds ∧ resolvePayroll db t.payrollRecordId = some p ∧ p.id ≠ "" ∧
      p.employeeIdVal = pin ∧ splitT p.payPeriodStart = pp.startDate ∧
      splitT p.payPeriodEnd = pp.endDate := by
  unfold tsLinksMatchingPayroll at h
  by_cases hc : (tsIds.contains t.id : Bool)
  · rw [if_pos hc] at h
    cases hr : resolvePayroll db t.payrollRecordId with
    | none => rw [hr] at h; simp only [] at h; exact Option.noConfusion h
    | some q =>
      rw [hr] at h
      simp only [] at h
      by_cases h1 : q.id.isEmpty
      · rw [if_pos h1] at h; cases h
      · rw [if_neg h1] at h
        by_cases h2 : (q.employeeIdVal != pin : Bool)
        · rw [if_pos h2] at h; cases h
        · rw [if_neg h2] at h
          by_cases h3 : (splitT q.payPeriodStart != pp.startDate ||
              splitT q.payPeriodEnd != pp.endDate : Bool)
          · rw [if_pos h3] at h; cases h
          · rw [if_neg h3] at h
            rw [Option.some_inj] at h
            subst h
            simp only [Bool.not_eq_true, bne_eq_false_iff_eq] at h2
            simp only [Bool.or_eq_true, bne_iff_ne, ne_eq, not_or, not_not] at h3
            refine ⟨by simpa [List.contains, List.elem_eq_mem] using hc, rfl, ?_, h2, h3.1, h3.2⟩
            simpa [String.isEmpty_iff] using h1
  · rw [if_neg hc] at h
    cases h

/-- C3 amended: `find_existing_payroll` locates the payroll record by
scanning all timesheets for the first of the group's ids whose
back-reference resolves to a payroll matching (employee, canonical
period); when it succeeds, the relation set it reports is exactly that
payroll record's own `relatedTimesheets` relation field, not a
recomputation from back-references; it returns `None` exactly when no
timesheet in the table passes that check — in particular a matching
payroll none of the group's timesheets links to is not found. -/
theorem find_existing_payroll_c3_amended :
    ∀ (db : Db) (pin : String) (pp : PayPeriodS) (tsIds : List String),
      (∀ r, find_existing_payroll db pin pp tsIds = some r →
        ∃ p, p ∈ db.payrolls ∧ r.id = p.id ∧ p.id ≠ "" ∧ p.employeeIdVal = pin ∧
          splitT p.payPeriodStart = pp.startDate ∧ splitT p.payPeriodEnd = pp.endDate ∧
          r.relatedTimesheetIds = p.relatedTimesheets ∧
          ∃ t, t ∈ db.timesheets ∧ t.id ∈ tsIds ∧ t.payrollRecordId = some p.id) ∧
      (find_existing_payroll db pin pp tsIds = none ↔
        ∀ t ∈ db.timesheets, ¬ linksMatching db pin pp tsIds t) := by
  intro db pin pp tsIds
  constructor
  · intro r hr
    unfold find_existing_payroll at hr
    cases hf : db.timesheets.findSome? (tsLinksMatchingPayroll db pin pp tsIds) with
    | none => rw [hf] at hr; cases hr
    | some p =>
      rw [hf] at hr
      rw [Option.map_eq_some'] at hr
      obtain ⟨q, hq, hrq⟩ := hr
      rw [Option.some_inj] at hq
      subst hq
      obtain ⟨t, ht, htp⟩ := List.exists_of_findSome?_eq_some hf
      obtain ⟨hmem, hres, hid, hemp, hps, hpe⟩ :=
        tsLinksMatchingPayroll_eq_some db pin pp tsIds t p htp
      refine ⟨p, ?_, by rw [← hrq], hid, hemp, hps, hpe, by rw [← hrq], t, ht, hmem, ?_⟩
      · unfold resolvePayroll at hres
        cases hb : t.payrollRecordId with
        | none => rw [hb] at hres; simp only [] at hres; exact Option.noConfusion hres
        | some pid =>
          rw [hb] at hres
          simp only [] at hres
          exact List.mem_of_find?_eq_some hres
      · unfold resolvePayroll at hres
        cases hb : t.payrollRecordId with
        | none => rw [hb] at hres; simp only [] at hres; exact Option.noConfusion hres
        | some pid =>
          rw [hb] at hres
          simp only [] at hres
          have := List.find?_some hres
          simp only [beq_iff_eq] at this
          rw [this]
  · unfold find_existing_payroll
    rw [Option.map_eq_none', List.findSome?_eq_none_iff]
    constructor
    · intro h t ht
      rw [← tsLinksMatchingPayroll_eq_none_iff]
      exact h t ht
    · intro h t ht
      rw [tsLinksMatchingPayroll_eq_none_iff]
      exact h t ht

/-- Witness for C3's amended theorem at `dbC3b`: the lookup succeeds
through the linked timesheet `T1` and reports `P1`'s cached relation
field, and in `dbC3` it returns `None` although a matching payroll
exists. -/
theorem find_existing_payroll_c3_witness :
    (∃ p, p ∈ dbC3b.payrolls ∧
        ({ id := "P1", employeeId := "0002",
           payPeriodStart := "2026-01-12T00:00:00-04:00",
           payPeriodEnd := "2026-01-25T00:00:00-04:00",
           relatedTimesheetIds := ["T1", "T9"] } : ExistingPayroll).id = p.id ∧
        p.id ≠ "" ∧ p.employeeIdVal = "0002" ∧
        splitT p.payPeriodStart = ppC3.startDate ∧ splitT p.payPeriodEnd = ppC3.endDate ∧
        (["T1", "T9"] : List String) = p.relatedTimesheets ∧
        ∃ t, t ∈ dbC3b.timesheets ∧ t.id ∈ ["T1"] ∧ t.payrollRecordId = some p.id) ∧
    (∀ t ∈ dbC3.timesheets, ¬ linksMatching dbC3 "0002" ppC3 ["T1"] t) :=
  ⟨(find_existing_payroll_c3_amended dbC3b "0002" ppC3 ["T1"]).1
      { id := "P1", employeeId := "0002",
        payPeriodStart := "2026-01-12T00:00:00-04:00",
        payPeriodEnd := "2026-01-25T00:00:00-04:00",
        relatedTimesheetIds := ["T1", "T9"] } rfl,
   (find_existing_payroll_c3_amended dbC3 "0002" ppC3 ["T1"]).2.mp rfl⟩

/-! ### Claim C4: post-upload verification -/
theorem filter_contains_eq_nil_iff (l1 l2 : List String) :
    (l1.filter (fun i => !l2.contains i)) = [] ↔ ∀ i ∈ l1, i ∈ l2 := by
  simp [List.filter_eq_nil_iff, List.contains, List.elem_eq_mem]

theorem both_subsets_iff_toFinset_eq (a b : List String) :
    ((∀ i ∈ a, i ∈ b) ∧ (∀ i ∈ b, i ∈ a)) ↔ a.toFinset = b.toFinset := by
  simp only [Finset.ext_iff, List.mem_toFinset]
  constructor
  · rintro ⟨h1, h2⟩ i
    exact ⟨fun hi => h1 i hi, fun hi => h2 i hi⟩
  · intro h
    exact ⟨fun i hi => (h i).mp hi, fun i hi => (h i).mpr hi⟩

theorem update_payroll_record_shape (ep : ExistingPayroll) (ts : List FetchedTs)
    (mu : Mutation) (h : update_payroll_record ep ts = some mu) :
    ∃ pid ids, mu = .updatePayroll pid ids := by
  unfold update_payroll_record at h
  simp only [] at h
  split at h
  · cases h
  · rw [Option.some_inj] at h
    exact ⟨_, _, h.symm⟩

theorem create_payroll_record_shape (db : Db) (pin : String) (ts : List FetchedTs)
    (pp : PayPeriodS) (mu : Mutation) (h : create_payroll_record db pin ts pp = .ok mu) :
    ∃ emp ps pe r ids, mu = .createPayroll emp ps pe r ids := by
  unfold create_payroll_record at h
  by_cases h0 : pin.isEmpty
  · rw [if_pos h0] at h
    exact Except.noConfusion h
  · rw [if_neg h0] at h
    simp only [] at h
    by_cases h1 : ((ts.map (fun x => x.id)).filter (fun i => !i.isEmpty)).isEmpty
    · rw [if_pos h1] at h
      exact Except.noConfusion h
    · rw [if_neg h1] at h
      cases he : parseYMD pp.endDate with
      | none =>
        rw [he] at h
        simp only [] at h
        exact Except.noConfusion h
      | some ed =>
        rw [he] at h
        simp only [] at h
        cases hs : parseYMD pp.startDate with
        | none =>
          rw [hs] at h
          simp only [] at h
          exact Except.noConfusion h
        | some sd =>
          rw [hs] at h
          simp only [] at h
          cases h
          exact ⟨_, _, _, _, _, rfl⟩

theorem after_write_no_mark (db : Db) (muts : List Mutation) (cInc uInc : Nat)
    (pid pin emp : String) (pp : PayPeriodS) (tsIds : List String) (n : Nat)
    (hm : ∀ m ∈ muts, isMarkMutation m = false) :
    (after_write db muts cInc uInc pid pin emp pp tsIds n).processedInc = 0 ∧
    ∀ m ∈ (after_write db muts cInc uInc pid pin emp pp tsIds n).mutations,
      isMarkMutation m = false := by
  unfold after_write
  have hcall : ¬ (markTimesheetsProcessedCallArgCount = markTimesheetsProcessedParamCount) := by
    decide
  by_cases hp : pid.isEmpty
  · rw [if_pos hp]
    simp only []
    rw [if_neg hcall]
    exact ⟨by trivial, hm⟩
  · rw [if_neg hp]
    rcases hv : verify_post_upload db.payrolls pid pin pp tsIds with ⟨b, errs⟩
    cases b
    · simp only []
      exact ⟨by trivial, hm⟩
    · simp only []
      rw [if_neg hcall]
      exact ⟨by trivial, hm⟩

theorem process_group_no_mark (db : Db) (kv : String × TsGroup) :
    (process_group db kv).processedInc = 0 ∧
    ∀ m ∈ (process_group db kv).mutations, isMarkMutation m = false := by
  unfold process_group
  simp only []
  by_cases hv : !(validate_pay_period kv.2.payPeriod).1
  · rw [if_pos hv]
    exact ⟨rfl, by intro m hm; cases hm⟩
  · rw [if_neg hv]
    cases hex : effectiveExistingPayroll db kv
        (if kv.2.employeePin.isEmpty then kv.2.employeeId else kv.2.employeePin)
        (kv.2.timesheets.map (fun x => x.id)) with
    | some ep =>
      simp only []
      cases hu : update_payroll_record ep kv.2.timesheets with
      | some mu =>
        simp only []
        obtain ⟨pid, ids, hmu⟩ := update_payroll_record_shape _ _ _ hu
        refine after_write_no_mark _ _ _ _ _ _ _ _ _ _ ?_
        intro m hm
        rw [List.mem_singleton] at hm
        subst hm hmu
        rfl
      | none =>
        simp only []
        refine after_write_no_mark _ _ _ _ _ _ _ _ _ _ ?_
        intro m hm
        cases hm
    | none =>
      simp only []
      cases hc : create_payroll_record db
          (if kv.2.employeePin.isEmpty then kv.2.employeeId else kv.2.employeePin)
          kv.2.timesheets kv.2.payPeriod with
      | error e =>
        simp only []
        exact ⟨by trivial, by intro m hm; cases hm⟩
      | ok mu =>
        simp only []
        obtain ⟨emp, ps, pe, r, ids, hmu⟩ := create_payroll_record_shape _ _ _ _ _ hc
        refine after_write_no_mark _ _ _ _ _ _ _ _ _ _ ?_
        intro m hm
        rw [List.mem_singleton] at hm
        subst hm hmu
        rfl

/-- C4: post-upload verification passes iff the re-read record is
found and its employee id, `T`-stripped period start and end, and
timesheet-id set (empty symmetric difference) all equal the expected
values; and a group whose verification failed never has its
timesheets marked processed (zero processed increment, no mark
mutation). -/
theorem verify_post_upload_c4 :
    (∀ (payrolls : List PayrollNode) (pid emp : String) (pp : PayPeriodS) (ids : List String),
      (verify_post_upload payrolls pid emp pp ids).1 = true ↔
        ∃ node, payrolls.find? (fun p => p.id == pid) = some node ∧
          node.employeeIdVal = emp ∧ splitT node.payPeriodStart = pp.startDate ∧
          splitT node.payPeriodEnd = pp.endDate ∧
          node.relatedTimesheets.toFinset = ids.toFinset) ∧
    (∀ (db : Db) (kv : String × TsGroup),
      (process_group db kv).verifyFailed.isSome = true →
      (process_group db kv).processedInc = 0 ∧
      ∀ m ∈ (process_group db kv).mutations, isMarkMutation m = false) := by
  constructor
  · intro payrolls pid emp pp ids
    unfold verify_post_upload
    cases hf : payrolls.find? (fun p => p.id == pid) with
    | none => simp
    | some node =>
      simp only [Option.some.injEq, exists_eq_left']
      rw [← both_subsets_iff_toFinset_eq]
      rw [← filter_contains_eq_nil_iff ids node.relatedTimesheets]
      rw [← filter_contains_eq_nil_iff node.relatedTimesheets ids]
      simp only [List.isEmpty_iff, List.append_eq_nil, ite_eq_right_iff,
        reduceCtorEq, imp_false, Bool.not_eq_true, bne_eq_false_iff_eq,
        Bool.not_eq_false', List.isEmpty_eq_true]
      tauto
  · intro db kv _
    exact process_group_no_mark db kv

/-- Witness for C4 at a concrete failing verification: the group's
timesheets are not marked processed. -/
theorem verify_post_upload_c4_witness :
    (process_group dbC4 kvC4).processedInc = 0 ∧
    ∀ m ∈ (process_group dbC4 kvC4).mutations, isMarkMutation m = false :=
  verify_post_upload_c4.2 dbC4 kvC4 (by decide)

/-- C6 counterexample: with two employee groups of which only `0002`
has a duplicate clock pair, the run raises at pre-upload validation
and performs zero writes — the clean `0003` group is not persisted and
nothing is accumulated into the per-group failure summary, contrary to
the claim that only the offending group is skipped. -/
theorem process_timesheets_c6_counterexample :
    (group_timesheets (get_approved_timesheets dbC6 (some ppC6)) ppC6).length = 2 ∧
    (process_timesheets_to_payroll dbC6 ppC6).preUploadErrors.isSome = true ∧
    (process_timesheets_to_payroll dbC6 ppC6).mutations = [] ∧
    (process_timesheets_to_payroll dbC6 ppC6).createdCount = 0 ∧
    (process_timesheets_to_payroll dbC6 ppC6).validationFailures = [] := by
  refine ⟨by decide, by decide, by decide, by decide, by decide⟩

theorem runFold_preUpload_none :
    ∀ (l : List (String × TsGroup)) (acc : RunResult),
      acc.preUploadErrors = none → (l.foldl runFoldStep acc).preUploadErrors = none := by
  intro l
  induction l with
  | nil => intro acc h; exact h
  | cons hd tl ih => intro acc _; exact ih (runFoldStep acc hd) rfl

/-- C6 amended: a pre-upload validation failure (duplicate clock pair
or duplicate payroll) aborts the entire run with a raised exception
before any write: the error list is non-empty, no mutation is sent, no
group is created or updated, and nothing is accumulated into the
per-group failure summary — only post-upload verification failures are
recovered per group. -/
theorem process_timesheets_c6_amended :
    ∀ (db : Db) (pp : PayPeriodS) (errs : List String),
      (process_timesheets_to_payroll db pp).preUploadErrors = some errs →
      errs ≠ [] ∧ (process_timesheets_to_payroll db pp).mutations = [] ∧
      (process_timesheets_to_payroll db pp).createdCount = 0 ∧
      (process_timesheets_to_payroll db pp).updatedCount = 0 ∧
      (process_timesheets_to_payroll db pp).validationFailures = [] := by
  intro db pp errs h
  unfold process_timesheets_to_payroll at h ⊢
  simp only [] at h ⊢
  by_cases h1 : (get_approved_timesheets db (some pp)).isEmpty
  · rw [if_pos h1] at h
    exact Option.noConfusion h
  · rw [if_neg h1] at h ⊢
    by_cases h2 : (((group_timesheets (get_approved_timesheets db (some pp)) pp).map
        (precheck_group db)).filter (·.inProcess)).isEmpty
    · rw [if_pos h2] at h
      exact Option.noConfusion h
    · rw [if_neg h2] at h ⊢
      by_cases h3 : !(validate_pre_upload
          ((((group_timesheets (get_approved_timesheets db (some pp)) pp).map
            (precheck_group db)).filter (·.inProcess)).map (fun pg => (pg.key, pg.group)))
          (get_all_payroll db) (some pp)).1
      · rw [if_pos h3] at h ⊢
        rw [Option.some_inj] at h
        subst h
        refine ⟨?_, rfl, rfl, rfl, rfl⟩
        simp only [Bool.not_eq_true'] at h3
        have : (validate_pre_upload
            ((((group_timesheets (get_approved_timesheets db (some pp)) pp).map
              (precheck_group db)).filter (·.inProcess)).map (fun pg => (pg.key, pg.group)))
            (get_all_payroll db) (some pp)).1 =
            (validate_pre_upload
            ((((group_timesheets (get_approved_timesheets db (some pp)) pp).map
              (precheck_group db)).filter (·.inProcess)).map (fun pg => (pg.key, pg.group)))
            (get_all_payroll db) (some pp)).2.isEmpty := rfl
        rw [this, List.isEmpty_eq_false] at h3
        exact h3
      · rw [if_neg h3] at h
        rw [runFold_preUpload_none _ _ rfl] at h
        exact Option.noConfusion h

/-- Witness for C6's amended theorem at the concrete aborting state
`dbC6`. -/
theorem process_timesheets_c6_witness :
    (["CRITICAL: Duplicate clock times found: timesheet A2 has same clock in/out as timesheet A1"] :
        List String) ≠ [] ∧
    (process_timesheets_to_payroll dbC6 ppC6).mutations = [] ∧
    (process_timesheets_to_payroll dbC6 ppC6).createdCount = 0 ∧
    (process_timesheets_to_payroll dbC6 ppC6).updatedCount = 0 ∧
    (process_timesheets_to_payroll dbC6 ppC6).validationFailures = [] :=
  process_timesheets_c6_amended dbC6 ppC6
    ["CRITICAL: Duplicate clock times found: timesheet A2 has same clock in/out as timesheet A1"]
    (by decide)

theorem run_fold_no_mark :
    ∀ (l : List (String × TsGroup)) (acc : RunResult),
      acc.processedCount = 0 → (∀ m ∈ acc.mutations, isMarkMutation m = false) →
      (l.foldl runFoldStep acc).processedCount = 0 ∧
      ∀ m ∈ (l.foldl runFoldStep acc).mutations, isMarkMutation m = false := by
  intro l
  induction l with
  | nil => intro acc h1 h2; exact ⟨h1, h2⟩
  | cons hd tl ih =>
    intro acc h1 h2
    refine ih (runFoldStep acc hd) ?_ ?_
    · show acc.processedCount + (process_group acc.dbFinal hd).processedInc = 0
      rw [h1, (process_group_no_mark acc.dbFinal hd).1]
    · intro m hm
      rw [show (runFoldStep acc hd).mutations =
        acc.mutations ++ (process_group acc.dbFinal hd).mutations from rfl,
        List.mem_append] at hm
      rcases hm with hm | hm
      · exact h2 m hm
      · exact (process_group_no_mark acc.dbFinal hd).2 m hm

/-- C10: the `mark_timesheets_processed` call site passes two
positional arguments to a one-parameter method, so it raises
`TypeError` on every invocation: on every run, over every database
state, no `updateTimesheets` (mark-processed) mutation is ever sent
and `processed_count` is never incremented. -/
theorem mark_timesheets_processed_c10 :
    markTimesheetsProcessedCallArgCount ≠ markTimesheetsProcessedParamCount ∧
    ∀ (db : Db) (pp : PayPeriodS),
      (process_timesheets_to_payroll db pp).processedCount = 0 ∧
      ∀ m ∈ (process_timesheets_to_payroll db pp).mutations, isMarkMutation m = false := by
  refine ⟨by decide, fun db pp => ?_⟩
  unfold process_timesheets_to_payroll
  simp only []
  by_cases h1 : (get_approved_timesheets db (some pp)).isEmpty
  · rw [if_pos h1]
    exact ⟨rfl, by intro m hm; cases hm⟩
  · rw [if_neg h1]
    by_cases h2 : (((group_timesheets (get_approved_timesheets db (some pp)) pp).map
        (precheck_group db)).filter (·.inProcess)).isEmpty
    · rw [if_pos h2]
      exact ⟨rfl, by intro m hm; cases hm⟩
    · rw [if_neg h2]
      by_cases h3 : !(validate_pre_upload
          ((((group_timesheets (get_approved_timesheets db (some pp)) pp).map
            (precheck_group db)).filter (·.inProcess)).map (fun pg => (pg.key, pg.group)))
          (get_all_payroll db) (some pp)).1
      · rw [if_pos h3]
        exact ⟨rfl, by intro m hm; cases hm⟩
      · rw [if_neg h3]
        exact run_fold_no_mark _ _ rfl (by intro m hm; cases hm)

/-- Witness for C10 at a concrete state that creates a payroll
record: even then, nothing is marked processed. -/
theorem mark_timesheets_processed_c10_witness :
    (process_timesheets_to_payroll dbC3 ppC6).processedCount = 0 ∧
    ∀ m ∈ (process_timesheets_to_payroll dbC3 ppC6).mutations, isMarkMutation m = false :=
  mark_timesheets_processed_c10.2 dbC3 ppC6

/-! ### Claim C5: fail-closed duplicate clock-pair detection -/
theorem dupClockStep_shape (acc : List (String × String) × List String) (ts : FetchedTs) :
    ∃ pairsExtra errExtra,
      dupClockStep acc ts = (acc.1 ++ pairsExtra, acc.2 ++ errExtra) := by
  unfold dupClockStep
  cases clockPairKey ts with
  | none => exact ⟨[], [], by simp⟩
  | some key =>
    cases hf : acc.1.find? (fun p => p.1 == key) with
    | some p =>
      refine ⟨[], ["CRITICAL: Duplicate clock times found: timesheet " ++ ts.id ++
        " has same clock in/out as timesheet " ++ p.2], ?_⟩
      simp [hf]
    | none => exact ⟨[(key, ts.id)], [], by simp [hf]⟩

theorem dupfold_errors_prefix :
    ∀ (l : List FetchedTs) (pairs : List (String × String)) (errors : List String),
      ∃ extra, (l.foldl dupClockStep (pairs, errors)).2 = errors ++ extra := by
  intro l
  induction l with
  | nil => exact fun pairs errors => ⟨[], (List.append_nil errors).symm⟩
  | cons hd tl ih =>
    intro pairs errors
    rw [List.foldl_cons]
    obtain ⟨pe, ee, hstep⟩ := dupClockStep_shape (pairs, errors) hd
    rw [hstep]
    obtain ⟨extra, hx⟩ := ih (pairs ++ pe) (errors ++ ee)
    exact ⟨ee ++ extra, by rw [hx, List.append_assoc]⟩

theorem dupClockStep_hit (pairs : List (String × String)) (errors : List String)
    (ts : FetchedTs) (k : String) (q : String × String)
    (hk : clockPairKey ts = some k) (hq : pairs.find? (fun p => p.1 == k) = some q) :
    ∃ e, dupClockStep (pairs, errors) ts = (pairs, errors ++ [e]) := by
  unfold dupClockStep
  rw [hk]
  simp only [hq]
  exact ⟨_, rfl⟩

theorem dupClockStep_miss (pairs : List (String × String)) (errors : List String)
    (ts : FetchedTs) (k : String)
    (hk : clockPairKey ts = some k) (hq : pairs.find? (fun p => p.1 == k) = none) :
    dupClockStep (pairs, errors) ts = (pairs ++ [(k, ts.id)], errors) := by
  unfold dupClockStep
  rw [hk]
  simp only [hq]

theorem dupfold_hit_present :
    ∀ (l2 l3 : List FetchedTs) (ts2 : FetchedTs) (k : String)
      (pairs : List (String × String)) (errors : List String),
      clockPairKey ts2 = some k → (∃ p ∈ pairs, p.1 = k) →
      ((l2 ++ ts2 :: l3).foldl dupClockStep (pairs, errors)).2 ≠ [] := by
  intro l2
  induction l2 with
  | nil =>
    intro l3 ts2 k pairs errors hk hp
    rw [List.nil_append, List.foldl_cons]
    have hf : (pairs.find? (fun p => p.1 == k)).isSome := by
      rw [List.find?_isSome]
      obtain ⟨p, hp1, hp2⟩ := hp
      exact ⟨p, hp1, by simp [hp2]⟩
    obtain ⟨q, hq⟩ := Option.isSome_iff_exists.mp hf
    obtain ⟨e, hstep⟩ := dupClockStep_hit pairs errors ts2 k q hk hq
    rw [hstep]
    obtain ⟨extra, hx⟩ := dupfold_errors_prefix l3 pairs (errors ++ [e])
    rw [hx]
    intro hcon
    rw [List.append_assoc, List.append_eq_nil] at hcon
    exact List.cons_ne_nil e extra (by simpa using hcon.2)
  | cons hd tl ih =>
    intro l3 ts2 k pairs errors hk hp
    rw [List.cons_append, List.foldl_cons]
    obtain ⟨pe, ee, hstep⟩ := dupClockStep_shape (pairs, errors) hd
    rw [hstep]
    obtain ⟨p, hp1, hp2⟩ := hp
    exact ih l3 ts2 k (pairs ++ pe) (errors ++ ee) hk
      ⟨p, List.mem_append_left pe hp1, hp2⟩

theorem validate_dup_clock_error (l1 : List FetchedTs) (ts1 : FetchedTs)
    (l2 : List FetchedTs) (ts2 : FetchedTs) (l3 : List FetchedTs) (k : String)
    (hk1 : clockPairKey ts1 = some k) (hk2 : clockPairKey ts2 = some k) :
    (validate_no_duplicate_clock_times (l1 ++ ts1 :: (l2 ++ ts2 :: l3))).2 ≠ [] := by
  unfold validate_no_duplicate_clock_times
  simp only []
  rw [List.foldl_append, List.foldl_cons]
  rcases hacc : (l1.foldl dupClockStep ([], [])) with ⟨pairs, errors⟩
  cases hf : pairs.find? (fun p => p.1 == k) with
  | some q =>
    obtain ⟨e, hstep⟩ := dupClockStep_hit pairs errors ts1 k q hk1 hf
    rw [hstep]
    obtain ⟨extra, hx⟩ := dupfold_errors_prefix (l2 ++ ts2 :: l3) pairs (errors ++ [e])
    rw [hx]
    intro hcon
    rw [List.append_assoc, List.append_eq_nil] at hcon
    exact List.cons_ne_nil e extra (by simpa using hcon.2)
  | none =>
    rw [dupClockStep_miss pairs errors ts1 k hk1 hf]
    exact dupfold_hit_present l2 l3 ts2 k (pairs ++ [(k, ts1.id)]) errors hk2
      ⟨(k, ts1.id), List.mem_append_right pairs (List.mem_singleton_self _), rfl⟩

theorem clockfold_mono :
    ∀ (l : List (String × TsGroup)) (a : List String) (x : String),
      x ∈ a → x ∈ l.foldl clockErrStep a := by
  intro l
  induction l with
  | nil => intro a x hx; exact hx
  | cons hd tl ih =>
    intro a x hx
    rw [List.foldl_cons]
    exact ih _ x (List.mem_append_left _ hx)

theorem clockfold_mem :
    ∀ (l : List (String × TsGroup)) (a : List String) (x : String) (kv : String × TsGroup),
      kv ∈ l →
      x ∈ (if (validate_no_duplicate_clock_times kv.2.timesheets).1 then []
        else (validate_no_duplicate_clock_times kv.2.timesheets).2) →
      x ∈ l.foldl clockErrStep a := by
  intro l
  induction l with
  | nil => intro a x kv hkv; cases hkv
  | cons hd tl ih =>
    intro a x kv hkv hx
    rw [List.foldl_cons]
    rcases List.mem_cons.mp hkv with hkv | hkv
    · subst hkv
      exact clockfold_mono tl _ x (List.mem_append_right a hx)
    · exact ih _ x kv hkv hx

theorem validate_pre_upload_errors_ne (groups : List (String × TsGroup))
    (recs : List PayrollDict) (cpp : Option PayPeriodS) (kv : String × TsGroup)
    (hkv : kv ∈ groups)
    (hne : (validate_no_duplicate_clock_times kv.2.timesheets).2 ≠ []) :
    (validate_pre_upload groups recs cpp).1 = false ∧
    (validate_pre_upload groups recs cpp).2 ≠ [] := by
  have h2ne : (validate_pre_upload groups recs cpp).2 ≠ [] := by
    unfold validate_pre_upload
    simp only []
    obtain ⟨x, hx⟩ := List.exists_mem_of_ne_nil _ hne
    have hx' : x ∈ (if (validate_no_duplicate_clock_times kv.2.timesheets).1 then []
        else (validate_no_duplicate_clock_times kv.2.timesheets).2) := by
      rw [if_neg ?_]
      · exact hx
      · have : (validate_no_duplicate_clock_times kv.2.timesheets).1 =
            (validate_no_duplicate_clock_times kv.2.timesheets).2.isEmpty := rfl
        rw [this, List.isEmpty_eq_true]
        simpa using hne
    exact List.ne_nil_of_mem (clockfold_mem groups _ x kv hkv hx')
  refine ⟨?_, h2ne⟩
  have : (validate_pre_upload groups recs cpp).1 =
      (validate_pre_upload groups recs cpp).2.isEmpty := rfl
  rw [this, List.isEmpty_eq_false]
  exact h2ne

theorem addToGroups_timesheets_sub (groups : List (String × TsGroup)) (key pin : String)
    (pp : PayPeriodS) (ts : FetchedTs) (key' : String) (g' : TsGroup)
    (hmem : (key', g') ∈ addToGroups groups key pin pp ts) :
    ∀ x ∈ g'.timesheets, x = ts ∨ ∃ g0, (key', g0) ∈ groups ∧ x ∈ g0.timesheets := by
  intro x hx
  unfold addToGroups at hmem
  cases hf : groups.find? (fun kv => kv.1 == key) with
  | some kv0 =>
    rw [hf] at hmem
    simp only [] at hmem
    rw [List.mem_map] at hmem
    obtain ⟨kv, hkv, heq⟩ := hmem
    by_cases hk : (kv.1 == key : Bool)
    · rw [if_pos hk] at heq
      have hkey : key' = kv.1 := (congrArg Prod.fst heq).symm
      have hg : g' = { kv.2 with timesheets := kv.2.timesheets ++ [ts] } :=
        (congrArg Prod.snd heq).symm
      rw [hg] at hx
      simp only [] at hx
      rcases List.mem_append.mp hx with hx | hx
      · exact Or.inr ⟨kv.2, by rw [hkey]; exact hkv, hx⟩
      · exact Or.inl (List.mem_singleton.mp hx)
    · rw [if_neg hk] at heq
      subst heq
      exact Or.inr ⟨g', hkv, hx⟩
  | none =>
    rw [hf] at hmem
    simp only [] at hmem
    rcases List.mem_append.mp hmem with hmem | hmem
    · exact Or.inr ⟨g', hmem, hx⟩
    · have hthis := List.mem_singleton.mp hmem
      have hg : g' =
          { employeeId := pin, employeePin := pin, payPeriod := pp,
            timesheets := [ts], existingPayroll := none } :=
        congrArg Prod.snd hthis
      rw [hg] at hx
      exact Or.inl (List.mem_singleton.mp hx)

theorem groupFold_inv (pp : PayPeriodS) (Q : FetchedTs → Prop) :
    ∀ (l : List FetchedTs) (acc : List (String × TsGroup)),
      (∀ ts ∈ l, (validate_timesheet ts).1 = true → Q ts) →
      (∀ key g, (key, g) ∈ acc → ∀ ts ∈ g.timesheets, Q ts) →
      ∀ key g, (key, g) ∈ l.foldl (groupStep pp) acc → ∀ ts ∈ g.timesheets, Q ts := by
  intro l
  induction l with
  | nil => intro acc _ hacc key g hmem; exact hacc key g hmem
  | cons hd tl ih =>
    intro acc hl hacc key g hmem
    rw [List.foldl_cons] at hmem
    refine ih (groupStep pp acc hd) (fun ts hts hv => hl ts (List.mem_cons_of_mem hd hts) hv)
      ?_ key g hmem
    intro key' g' hmem' ts hts
    unfold groupStep at hmem'
    by_cases hv : !(validate_timesheet hd).1
    · rw [if_pos hv] at hmem'
      exact hacc key' g' hmem' ts hts
    · rw [if_neg hv] at hmem'
      cases hp : hd.employeePin with
      | none =>
        rw [hp] at hmem'
        simp only [] at hmem'
        exact hacc key' g' hmem' ts hts
      | some pinRaw =>
        rw [hp] at hmem'
        simp only [] at hmem'
        by_cases he : pinRaw.isEmpty
        · rw [if_pos he] at hmem'
          exact hacc key' g' hmem' ts hts
        · rw [if_neg he] at hmem'
          rcases addToGroups_timesheets_sub _ _ _ _ _ _ _ hmem' ts hts with h | ⟨g0, hg0, hts0⟩
          · rw [h]
            exact hl hd (List.mem_cons_self hd tl) (by simpa using hv)
          · exact hacc key' g0 hg0 ts hts0

theorem group_timesheets_members (approved : List FetchedTs) (pp : PayPeriodS)
    (key : String) (g : TsGroup)
    (hg : (key, g) ∈ group_timesheets approved pp) :
    ∀ ts ∈ g.timesheets, ts ∈ approved ∧ (validate_timesheet ts).1 = true := by
  exact groupFold_inv pp (fun ts => ts ∈ approved ∧ (validate_timesheet ts).1 = true)
    approved [] (fun ts hts hv => ⟨hts, hv⟩) (fun key' g' hmem => by cases hmem) key g hg

theorem get_approved_origin (db : Db) (pp : Option PayPeriodS) (ts : FetchedTs)
    (h : ts ∈ get_approved_timesheets db pp) :
    ∃ t ∈ db.timesheets, toFetched t = ts ∧ t.payrollRecordId = none := by
  unfold get_approved_timesheets at h
  simp only [] at h
  have hbase : ts ∈ (get_all_timesheets db).filter
      (fun ts => pyTruthy ts.approved && !ts.payrollProcessed) := by
    cases pp with
    | none => exact h
    | some p =>
      simp only [] at h
      by_cases hc : (p.startDate.isEmpty || p.endDate.isEmpty : Bool)
      · rw [if_pos hc] at h
        exact h
      · rw [if_neg hc] at h
        exact List.mem_of_mem_filter h
  rw [List.mem_filter] at hbase
  obtain ⟨hmem, hcond⟩ := hbase
  unfold get_all_timesheets at hmem
  rw [List.mem_map] at hmem
  obtain ⟨t, ht, hteq⟩ := hmem
  refine ⟨t, ht, hteq, ?_⟩
  have hproc : ts.payrollProcessed = false := by
    rcases Bool.and_eq_true_iff.mp hcond with ⟨_, h2⟩
    simpa using h2
  rw [← hteq] at hproc
  have : t.payrollRecordId.isSome = false := hproc
  cases hb : t.payrollRecordId with
  | none => rfl
  | some v => rw [hb] at this; cases this

theorem find_existing_payroll_unlinked (db : Db) (pin : String) (pp2 : PayPeriodS)
    (tsIds : List String)
    (hN : (db.timesheets.map (·.id)).Nodup)
    (h : ∀ i ∈ tsIds, ∃ t, t ∈ db.timesheets ∧ t.id = i ∧ t.payrollRecordId = none) :
    find_existing_payroll db pin pp2 tsIds = none := by
  unfold find_existing_payroll
  rw [Option.map_eq_none', List.findSome?_eq_none_iff]
  intro t ht
  rw [tsLinksMatchingPayroll_eq_none_iff]
  rintro ⟨hmem, p, hres, -⟩
  obtain ⟨t', ht', hid, hbr⟩ := h t.id hmem
  have hteq : t = t' := List.inj_on_of_nodup_map hN ht ht' (by rw [hid])
  rw [hteq, hbr] at hres
  unfold resolvePayroll at hres
  exact Option.noConfusion hres

theorem validate_timesheet_id_ne (ts : FetchedTs)
    (hv : (validate_timesheet ts).1 = true) : ts.id.isEmpty = false := by
  unfold validate_timesheet at hv
  by_cases h : ts.id.isEmpty
  · rw [if_pos h] at hv
    cases hv
  · simpa using h

theorem precheck_unprocessed (db : Db) (pp : PayPeriodS) (key : String) (g : TsGroup)
    (hN : (db.timesheets.map (·.id)).Nodup)
    (hmembers : ∀ ts ∈ g.timesheets,
      ts ∈ get_approved_timesheets db (some pp) ∧ (validate_timesheet ts).1 = true)
    (hne : g.timesheets ≠ []) :
    precheck_group db (key, g) = ⟨key, g, true⟩ := by
  unfold precheck_group
  simp only []
  have hidsne : ((g.timesheets.map (fun x => x.id)).filter
      (fun i => !i.isEmpty)).isEmpty = false := by
    obtain ⟨ts, hts⟩ := List.exists_mem_of_ne_nil _ hne
    rw [List.isEmpty_eq_false]
    refine List.ne_nil_of_mem (a := ts.id) ?_
    rw [List.mem_filter]
    exact ⟨List.mem_map_of_mem _ hts,
      by rw [validate_timesheet_id_ne ts (hmembers ts hts).2]; rfl⟩
  rw [if_neg (by simp [hidsne])]
  rw [find_existing_payroll_unlinked db g.employeePin g.payPeriod _ hN ?_]
  intro i hi
  rw [List.mem_filter, List.mem_map] at hi
  obtain ⟨⟨ts, hts, hid⟩, -⟩ := hi
  obtain ⟨t, ht, hteq, hbr⟩ := get_approved_origin db (some pp) ts (hmembers ts hts).1
  exact ⟨t, ht, by rw [show t.id = ts.id from congrArg FetchedTs.id hteq, hid], hbr⟩

/-- C5: two timesheets in one employee group with identical normalized
clock pairs make pre-upload validation report an error, and the run
performs no write at all — in particular none for that group. -/
theorem process_timesheets_c5 :
    ∀ (db : Db) (pp : PayPeriodS) (key : String) (g : TsGroup)
      (l1 l2 l3 : List FetchedTs) (ts1 ts2 : FetchedTs) (k : String),
      (db.timesheets.map (·.id)).Nodup →
      (key, g) ∈ group_timesheets (get_approved_timesheets db (some pp)) pp →
      g.timesheets = l1 ++ ts1 :: (l2 ++ ts2 :: l3) →
      clockPairKey ts1 = some k → clockPairKey ts2 = some k →
      (∃ errs, (process_timesheets_to_payroll db pp).preUploadErrors = some errs ∧
        errs ≠ []) ∧
      (process_timesheets_to_payroll db pp).mutations = [] := by
  intro db pp key g l1 l2 l3 ts1 ts2 k hN hg hsplit hk1 hk2
  have hmembers := group_timesheets_members _ _ _ _ hg
  have hts1mem : ts1 ∈ g.timesheets := by rw [hsplit]; simp
  have hne : g.timesheets ≠ [] := List.ne_nil_of_mem hts1mem
  have hpre : precheck_group db (key, g) = ⟨key, g, true⟩ :=
    precheck_unprocessed db pp key g hN hmembers hne
  have happ : ¬ ((get_approved_timesheets db (some pp)).isEmpty = true) := by
    rw [List.isEmpty_eq_true]
    exact fun hc => absurd ((hmembers ts1 hts1mem).1) (by rw [hc]; exact List.not_mem_nil ts1)
  have hproc : (⟨key, g, true⟩ : PrecheckedGroup) ∈
      ((group_timesheets (get_approved_timesheets db (some pp)) pp).map
        (precheck_group db)).filter (·.inProcess) := by
    rw [List.mem_filter]
    constructor
    · rw [← hpre]
      exact List.mem_map_of_mem _ hg
    · rfl
  have hfilterne : ¬ ((((group_timesheets (get_approved_timesheets db (some pp)) pp).map
      (precheck_group db)).filter (·.inProcess)).isEmpty = true) := by
    rw [List.isEmpty_eq_true]
    exact fun hc => absurd hproc (by rw [hc]; exact List.not_mem_nil _)
  have hkv : (key, g) ∈ ((((group_timesheets (get_approved_timesheets db (some pp)) pp).map
      (precheck_group db)).filter (·.inProcess)).map (fun pg => (pg.key, pg.group))) :=
    List.mem_map_of_mem _ hproc
  have hdup : (validate_no_duplicate_clock_times g.timesheets).2 ≠ [] := by
    rw [hsplit]
    exact validate_dup_clock_error l1 ts1 l2 ts2 l3 k hk1 hk2
  have hval := validate_pre_upload_errors_ne
    ((((group_timesheets (get_approved_timesheets db (some pp)) pp).map
      (precheck_group db)).filter (·.inProcess)).map (fun pg => (pg.key, pg.group)))
    (get_all_payroll db) (some pp) (key, g) hkv hdup
  unfold process_timesheets_to_payroll
  simp only []
  rw [if_neg happ, if_neg hfilterne, if_pos (by rw [Bool.not_eq_true', hval.1])]
  exact ⟨⟨_, rfl, hval.2⟩, rfl⟩

/-- Witness for C5 at the concrete state `dbC6`: employee `0002`'s
group holds the duplicate pair `A1`/`A2`, validation reports it, and
the run performs zero writes. -/
theorem process_timesheets_c5_witness :
    (∃ errs, (process_timesheets_to_payroll dbC6 ppC6).preUploadErrors = some errs ∧
      errs ≠ []) ∧
    (process_timesheets_to_payroll dbC6 ppC6).mutations = [] :=
  process_timesheets_c5 dbC6 ppC6 "0002_2026-01-12_2026-01-25"
    { employeeId := "0002", employeePin := "0002", payPeriod := ppC6,
      timesheets := [fA1, fA2], existingPayroll := none }
    [] [] [] fA1 fA2
    "2026-01-13 09:00:00|2026-01-13 17:00:00"
    (by decide) (by decide) (by decide) (by decide) (by decide)

end PayrollSpec
